import Mathlib

/-!
# otr3: group primitives, the SMP state machine and the data message generator

A shallow embedding of `dh.go`, `smp_state_machine.go` and `data_msg.go`, with models of
the plaintext body and of the binary envelope that the tests exercise.

* `*big.Int` values are `Int` (arbitrary precision, as in Go).
* Go's `error` is `Option error`; `none` is the nil error.
* A Go pointer that may be nil is an `Option`.
* A method that mutates its `*Conversation` receiver returns the new
  `Conversation` next to its Go results.
* A nil-pointer dereference (a Go run-time fault) is the outer `none` of the
  result of `receiveSMP`; an out-of-range slice access is `Outcome.fault`.
-/

namespace otr3

/-! ## dh.go -/

/-- The prime field modulus `p` of `dh.go` (the hexadecimal string given to `SetString`). -/
def p : Int :=
  0xFFFFFFFFFFFFFFFFC90FDAA22168C234C4C6628B80DC1CD129024E088A67CC74020BBEA63B139B22514A08798E3404DDEF9519B3CD3A431B302B0A6DF25F14374FE1356D6D51C245E485B576625E7EC6F44C42E9A637ED6B0BFF5CB6F406B7EDEE386BFB5A899FA5AE9F24117C4B1FE649286651ECE45B3DC2007CB8A163BF0598DA48361C55D39A69163FA8FD24CF5F83655D23DCA3AD961C62F356208552BB9ED529077096966D670C354E4ABC9804F1746C08CA237327FFFFFFFFFFFFFFFF

/-- The subgroup order `q` of `dh.go`. -/
def q : Int :=
  0x7FFFFFFFFFFFFFFFE487ED5110B4611A62633145C06E0E68948127044533E63A0105DF531D89CD9128A5043CC71A026EF7CA8CD9E69D218D98158536F92F8A1BA7F09AB6B6A8E122F242DABB312F3F637A262174D31BF6B585FFAE5B7A035BF6F71C35FDAD44CFD2D74F9208BE258FF324943328F6722D9EE1003E5C50B1DF82CC6D241B0E2AE9CD348B1FD47E9267AFC1B2AE91EE51D6CB0E3179AB1042A95DCF6A9483B84B4B36B3861AA7255E4C0278BA36046511B993FFFFFFFFFFFFFFFF

/-- The value `pMinusTwo = new(big.Int).Sub(p, new(big.Int).SetInt64(2))`. -/
def pMinusTwo : Int := p - 2

/-- The group generator `g1 = new(big.Int).SetInt64(2)`. -/
def g1 : Int := 2

/-- The three-way comparison `x.Cmp(y)` of `math/big`: `-1` if `x < y`, `0` if `x == y`,
`+1` if `x > y`. -/
def Cmp (x y : Int) : Int :=
  if x < y then -1 else if y < x then 1 else 0

/-- The function `isGroupElement` of `dh.go`:
`g1.Cmp(n) != 1 && pMinusTwo.Cmp(n) != -1`. -/
def isGroupElement (n : Int) : Bool :=
  Cmp g1 n != 1 && Cmp pMinusTwo n != -1

/-! ## Data model of the SMP substate

The type declarations of the messages, of the per-step states and of `Conversation` lie
outside `smp_state_machine.go`; the structures below carry the fields that the state
machine reads or writes, and keep what it never touches as one payload field. -/

/-- Go `error` values: the two the state machine names, and any other error value (such as
those returned by the `verifySMPn` helpers). -/
inductive error where
  | errShortRandomRead
  | errCantAuthenticateWithoutEncryption
  | other (text : String)
  deriving DecidableEq, Repr

/-- The struct `tlv` (fields as used in `data_msg.go`): `tlvType` and `tlvLength` are
`uint16`, `tlvValue` is a byte slice. -/
structure tlv where
  tlvType : Nat
  tlvLength : Nat
  tlvValue : List Nat
  deriving DecidableEq, Repr

/-- The struct `smp1Message`: `hasQuestion` and `question` are the fields written by
`startAuthenticate`; `mpis` stands for the group elements and proofs it also carries. -/
structure smp1Message where
  mpis : List Int
  hasQuestion : Bool
  question : String
  deriving DecidableEq, Repr

/-- The struct `smp2Message` (its values as one payload). -/
structure smp2Message where
  mpis : List Int
  deriving DecidableEq, Repr

/-- The struct `smp3Message` (its values as one payload). -/
structure smp3Message where
  mpis : List Int
  deriving DecidableEq, Repr

/-- The struct `smp4Message` (its values as one payload). -/
structure smp4Message where
  mpis : List Int
  deriving DecidableEq, Repr

/-- The empty struct `smpMessageAbort`. -/
structure smpMessageAbort where
  deriving DecidableEq, Repr

/-- The interface `smpMessage`: one constructor per implementing type; a nil interface
value is `none` of `Option smpMessage`. -/
inductive smpMessage where
  | smp1 (m : smp1Message)
  | smp2 (m : smp2Message)
  | smp3 (m : smp3Message)
  | smp4 (m : smp4Message)
  | abort (m : smpMessageAbort)
  deriving DecidableEq, Repr

/-- The struct `smp1State` returned by `generateSMP1`: the message `msg` and the private
exponents kept for the later steps. -/
structure smp1State where
  params : List Int
  msg : smp1Message
  deriving DecidableEq, Repr

/-- The struct `smp2State` returned by `generateSMP2`. -/
structure smp2State where
  params : List Int
  msg : smp2Message
  deriving DecidableEq, Repr

/-- The struct `smp3State` returned by `generateSMP3`. -/
structure smp3State where
  params : List Int
  msg : smp3Message
  deriving DecidableEq, Repr

/-- The struct `smp4State` returned by `generateSMP4`. -/
structure smp4State where
  params : List Int
  msg : smp4Message
  deriving DecidableEq, Repr

/-- The interface `smpState`: the four state types declared in `smp_state_machine.go`
(the interface value is taken to be non-nil). -/
inductive smpState where
  | smpStateExpect1
  | smpStateExpect2
  | smpStateExpect3
  | smpStateExpect4
  deriving DecidableEq, Repr

/-- The SMP substate `c.smp`: `state`, the optional `question` (a `*string`), the `secret`
(a `*big.Int`) and the pointers `s1`, `s2`, `s3` to the per-step states. -/
structure smp where
  state : smpState
  question : Option String
  secret : Option Int
  s1 : Option smp1State
  s2 : Option smp2State
  s3 : Option smp3State
  deriving DecidableEq, Repr

/-- The message state of a conversation. -/
inductive msgState where
  | plainText
  | encrypted
  | finished
  deriving DecidableEq, Repr

/-- The protocol versions `otrV2{}` and `otrV3{}`. -/
inductive otrVersion where
  | otrV2
  | otrV3
  deriving DecidableEq, Repr

/-- A DSA public key. -/
structure PublicKey where
  P : Int
  Q : Int
  G : Int
  Y : Int
  deriving DecidableEq, Repr

/-- A DSA private key; it embeds its `PublicKey`. -/
structure PrivateKey where
  PublicKey : PublicKey
  X : Int
  deriving DecidableEq, Repr

/-- The struct `Conversation`, with the fields that the source and its tests name. -/
structure Conversation where
  version : Option otrVersion
  Policies : Nat
  ourInstanceTag : Nat
  theirInstanceTag : Nat
  msgState : msgState
  whitespaceState : Nat
  debug : Bool
  OurKey : PrivateKey
  TheirKey : PublicKey
  ssid : List Nat
  smp : smp
  deriving DecidableEq, Repr

/-- The methods of `Conversation` and the free functions that `smp_state_machine.go` calls
and that are defined elsewhere in the package. They are taken as parameters. Each reads the
conversation (and through it the injected random source) and returns its Go results, and
none of them writes a field of the conversation; the `ok` flag of a generator is `false` on
a short random read. `smpBody` is the wire encoding of the values of an SMP message. -/
structure Primitives where
  verifySMP1 : Conversation → smp1Message → Option error
  verifySMP2 : Conversation → Option smp1State → smp2Message → Option error
  verifySMP3 : Conversation → Option smp2State → smp3Message → Option error
  verifySMP3ProtocolSuccess : Conversation → Option smp2State → smp3Message → Option error
  verifySMP4 : Conversation → Option smp3State → smp4Message → Option error
  verifySMP4ProtocolSuccess :
    Conversation → Option smp1State → Option smp3State → smp4Message → Option error
  generateSMP1 : Conversation → smp1State × Bool
  generateSMP2 : Conversation → Option Int → smp1Message → smp2State × Bool
  generateSMP3 : Conversation → Option Int → smp1State → smp2Message → smp3State × Bool
  generateSMP4 : Conversation → Option Int → smp2State → smp3Message → smp4State × Bool
  generateSMPSecret : List Nat → List Nat → List Nat → List Nat → Option Int
  DefaultFingerprint : PublicKey → List Nat
  smpBody : List Int → List Nat

/-- Modelled from the spec: `IsEncrypted` is defined outside the embedded source files; the spec names the
message states PLAINTEXT, ENCRYPTED and FINISHED, and a conversation is encrypted exactly in
the state ENCRYPTED. -/
def Conversation.IsEncrypted (c : Conversation) : Bool :=
  c.msgState == msgState.encrypted

/-- Modelled from the spec: the bytes of a Go string (its UTF-8 encoding). -/
def stringBytes (s : String) : List Nat :=
  (s.data.flatMap String.utf8EncodeChar).map UInt8.toNat

/-- Modelled from the spec: the `tlv()` methods are defined outside the embedded source files. A TLV is
type (uint16), length (uint16) and `length` value bytes; the value of an SMP TLV is the
wire encoding `smpBody` of the values the message carries. -/
def smpTLV (P : Primitives) (tp : Nat) (mpis : List Int) : tlv :=
  { tlvType := tp, tlvLength := (P.smpBody mpis).length % 65536, tlvValue := P.smpBody mpis }

/-- Modelled from the spec: `smp1Message.tlv()` is defined outside the embedded source files. TLV type 2 is
SMP-1; type 7 is SMP-1-with-question, whose value is the NUL-terminated question followed
by the SMP-1 body. -/
def smp1Message.tlv (P : Primitives) (m : smp1Message) : otr3.tlv :=
  if m.hasQuestion then
    { tlvType := 7
      tlvLength := (stringBytes m.question ++ 0 :: P.smpBody m.mpis).length % 65536
      tlvValue := stringBytes m.question ++ 0 :: P.smpBody m.mpis }
  else smpTLV P 2 m.mpis

/-- Modelled from the spec: `smp2Message.tlv()` is defined outside the embedded source files; TLV type 3 is
SMP-2. -/
def smp2Message.tlv (P : Primitives) (m : smp2Message) : otr3.tlv := smpTLV P 3 m.mpis

/-- Modelled from the spec: `smp3Message.tlv()` is defined outside the embedded source files; TLV type 4 is
SMP-3. -/
def smp3Message.tlv (P : Primitives) (m : smp3Message) : otr3.tlv := smpTLV P 4 m.mpis

/-- Modelled from the spec: `smp4Message.tlv()` is defined outside the embedded source files; TLV type 5 is
SMP-4. -/
def smp4Message.tlv (P : Primitives) (m : smp4Message) : otr3.tlv := smpTLV P 5 m.mpis

/-- Modelled from the spec: `smpMessageAbort.tlv()` is defined outside the embedded source files; TLV type 6
is SMP-Abort, and the message carries no value. -/
def smpMessageAbort.tlv (P : Primitives) (_m : smpMessageAbort) : otr3.tlv := smpTLV P 6 []

/-- The interface call `m.tlv()`, dispatched on the dynamic type of `m`. -/
def smpMessage.tlv (P : Primitives) : smpMessage → otr3.tlv
  | smpMessage.smp1 m => m.tlv P
  | smpMessage.smp2 m => m.tlv P
  | smpMessage.smp3 m => m.tlv P
  | smpMessage.smp4 m => m.tlv P
  | smpMessage.abort m => m.tlv P

/-! ## smp_state_machine.go -/

/-- The Go result triple `(smpState, smpMessage, error)`; the message is an interface
value and may be nil. -/
abbrev Transition := smpState × Option smpMessage × Option error

/-- The function `abortStateMachineWith`:
`return smpStateExpect1{}, smpMessageAbort{}, e`. -/
def abortStateMachineWith (e : Option error) : Transition :=
  (smpState.smpStateExpect1, some (smpMessage.abort {}), e)

/-- The function `abortStateMachine`: `return abortStateMachineWith(nil)`. -/
def abortStateMachine : Transition :=
  abortStateMachineWith none

/-- The method `smpStateBase.receiveMessage1`. -/
def smpStateBase.receiveMessage1 (c : Conversation) (_m : smp1Message) :
    Option (Conversation × Transition) :=
  some (c, abortStateMachine)

/-- The method `smpStateBase.receiveMessage2`. -/
def smpStateBase.receiveMessage2 (c : Conversation) (_m : smp2Message) :
    Option (Conversation × Transition) :=
  some (c, abortStateMachine)

/-- The method `smpStateBase.receiveMessage3`. -/
def smpStateBase.receiveMessage3 (c : Conversation) (_m : smp3Message) :
    Option (Conversation × Transition) :=
  some (c, abortStateMachine)

/-- The method `smpStateBase.receiveMessage4`. -/
def smpStateBase.receiveMessage4 (c : Conversation) (_m : smp4Message) :
    Option (Conversation × Transition) :=
  some (c, abortStateMachine)

/-- The statement `if m.hasQuestion { c.smp.question = &m.question }` of
`smpStateExpect1.receiveMessage1`. -/
def storeQuestion (c : Conversation) (m : smp1Message) : Conversation :=
  if m.hasQuestion then { c with smp.question := some m.question } else c

/-- The method `smpStateExpect1.receiveMessage1`. The question is stored in the conversation
before `generateSMP2` is called. -/
def smpStateExpect1.receiveMessage1 (P : Primitives) (c : Conversation) (m : smp1Message) :
    Option (Conversation × Transition) :=
  match P.verifySMP1 c m with
  | some err => some (c, abortStateMachineWith (some err))
  | none =>
    let c1 := storeQuestion c m
    let r := P.generateSMP2 c1 c1.smp.secret m
    if !r.2 then some (c1, abortStateMachineWith (some error.errShortRandomRead))
    else some (c1, smpState.smpStateExpect3, some (smpMessage.smp2 r.1.msg), none)

/-- The method `smpStateExpect2.receiveMessage2`. The argument `*c.smp.s1` of
`generateSMP3` dereferences `c.smp.s1`: a nil pointer there is a run-time fault (`none`). -/
def smpStateExpect2.receiveMessage2 (P : Primitives) (c : Conversation) (m : smp2Message) :
    Option (Conversation × Transition) :=
  match P.verifySMP2 c c.smp.s1 m with
  | some err => some (c, abortStateMachineWith (some err))
  | none =>
    match c.smp.s1 with
    | none => none
    | some s1 =>
      let r := P.generateSMP3 c c.smp.secret s1 m
      if !r.2 then some (c, abortStateMachineWith (some error.errShortRandomRead))
      else some (c, smpState.smpStateExpect4, some (smpMessage.smp3 r.1.msg), none)

/-- The method `smpStateExpect3.receiveMessage3`. The argument `*c.smp.s2` of
`generateSMP4` dereferences `c.smp.s2`: a nil pointer there is a run-time fault (`none`). -/
def smpStateExpect3.receiveMessage3 (P : Primitives) (c : Conversation) (m : smp3Message) :
    Option (Conversation × Transition) :=
  match P.verifySMP3 c c.smp.s2 m with
  | some err => some (c, abortStateMachineWith (some err))
  | none =>
    match P.verifySMP3ProtocolSuccess c c.smp.s2 m with
    | some err => some (c, abortStateMachineWith (some err))
    | none =>
      match c.smp.s2 with
      | none => none
      | some s2 =>
        let r := P.generateSMP4 c c.smp.secret s2 m
        if !r.2 then some (c, abortStateMachineWith (some error.errShortRandomRead))
        else some (c, smpState.smpStateExpect1, some (smpMessage.smp4 r.1.msg), none)

/-- The method `smpStateExpect4.receiveMessage4`. -/
def smpStateExpect4.receiveMessage4 (P : Primitives) (c : Conversation) (m : smp4Message) :
    Option (Conversation × Transition) :=
  match P.verifySMP4 c c.smp.s3 m with
  | some err => some (c, abortStateMachineWith (some err))
  | none =>
    match P.verifySMP4ProtocolSuccess c c.smp.s1 c.smp.s3 m with
    | some err => some (c, abortStateMachineWith (some err))
    | none => some (c, smpState.smpStateExpect1, none, none)

/-- The interface call `c.smp.state.receiveMessage1(c, m)`: `smpStateExpect1` has its own
method, the other states get the one promoted from the embedded `smpStateBase`. -/
def smpState.receiveMessage1 (P : Primitives) (s : smpState) (c : Conversation)
    (m : smp1Message) : Option (Conversation × Transition) :=
  match s with
  | smpState.smpStateExpect1 => smpStateExpect1.receiveMessage1 P c m
  | smpState.smpStateExpect2 => smpStateBase.receiveMessage1 c m
  | smpState.smpStateExpect3 => smpStateBase.receiveMessage1 c m
  | smpState.smpStateExpect4 => smpStateBase.receiveMessage1 c m

/-- The interface call `c.smp.state.receiveMessage2(c, m)`. -/
def smpState.receiveMessage2 (P : Primitives) (s : smpState) (c : Conversation)
    (m : smp2Message) : Option (Conversation × Transition) :=
  match s with
  | smpState.smpStateExpect1 => smpStateBase.receiveMessage2 c m
  | smpState.smpStateExpect2 => smpStateExpect2.receiveMessage2 P c m
  | smpState.smpStateExpect3 => smpStateBase.receiveMessage2 c m
  | smpState.smpStateExpect4 => smpStateBase.receiveMessage2 c m

/-- The interface call `c.smp.state.receiveMessage3(c, m)`. -/
def smpState.receiveMessage3 (P : Primitives) (s : smpState) (c : Conversation)
    (m : smp3Message) : Option (Conversation × Transition) :=
  match s with
  | smpState.smpStateExpect1 => smpStateBase.receiveMessage3 c m
  | smpState.smpStateExpect2 => smpStateBase.receiveMessage3 c m
  | smpState.smpStateExpect3 => smpStateExpect3.receiveMessage3 P c m
  | smpState.smpStateExpect4 => smpStateBase.receiveMessage3 c m

/-- The interface call `c.smp.state.receiveMessage4(c, m)`. -/
def smpState.receiveMessage4 (P : Primitives) (s : smpState) (c : Conversation)
    (m : smp4Message) : Option (Conversation × Transition) :=
  match s with
  | smpState.smpStateExpect1 => smpStateBase.receiveMessage4 c m
  | smpState.smpStateExpect2 => smpStateBase.receiveMessage4 c m
  | smpState.smpStateExpect3 => smpStateBase.receiveMessage4 c m
  | smpState.smpStateExpect4 => smpStateExpect4.receiveMessage4 P c m

/-- The assignment `c.smp.state, ret, err = ...` shared by the four `receivedMessage`
methods: the new state is stored after the call returns. -/
def storeState : Option (Conversation × Transition) →
    Option (Conversation × Option smpMessage × Option error)
  | none => none
  | some (c1, st, ret, err) => some ({ c1 with smp.state := st }, ret, err)

/-- The method `smp1Message.receivedMessage`. -/
def smp1Message.receivedMessage (P : Primitives) (m : smp1Message) (c : Conversation) :
    Option (Conversation × Option smpMessage × Option error) :=
  storeState (c.smp.state.receiveMessage1 P c m)

/-- The method `smp2Message.receivedMessage`. -/
def smp2Message.receivedMessage (P : Primitives) (m : smp2Message) (c : Conversation) :
    Option (Conversation × Option smpMessage × Option error) :=
  storeState (c.smp.state.receiveMessage2 P c m)

/-- The method `smp3Message.receivedMessage`. -/
def smp3Message.receivedMessage (P : Primitives) (m : smp3Message) (c : Conversation) :
    Option (Conversation × Option smpMessage × Option error) :=
  storeState (c.smp.state.receiveMessage3 P c m)

/-- The method `smp4Message.receivedMessage`. -/
def smp4Message.receivedMessage (P : Primitives) (m : smp4Message) (c : Conversation) :
    Option (Conversation × Option smpMessage × Option error) :=
  storeState (c.smp.state.receiveMessage4 P c m)

/-- The method `smpMessageAbort.receivedMessage`: `c.smp.state = smpStateExpect1{}`, and the
named results keep their zero values. -/
def smpMessageAbort.receivedMessage (_m : smpMessageAbort) (c : Conversation) :
    Option (Conversation × Option smpMessage × Option error) :=
  some ({ c with smp.state := smpState.smpStateExpect1 }, none, none)

/-- The interface call `m.receivedMessage(c)`, dispatched on the dynamic type of `m`. -/
def smpMessage.receivedMessage (P : Primitives) (m : smpMessage) (c : Conversation) :
    Option (Conversation × Option smpMessage × Option error) :=
  match m with
  | smpMessage.smp1 m => m.receivedMessage P c
  | smpMessage.smp2 m => m.receivedMessage P c
  | smpMessage.smp3 m => m.receivedMessage P c
  | smpMessage.smp4 m => m.receivedMessage P c
  | smpMessage.abort m => m.receivedMessage c

/-- The method `Conversation.receiveSMP`: the conversation after the call, the returned
`*tlv` and the returned `error`; the outer `none` is a run-time fault. -/
def Conversation.receiveSMP (P : Primitives) (c : Conversation) (m : smpMessage) :
    Option (Conversation × Option tlv × Option error) :=
  match m.receivedMessage P c with
  | none => none
  | some (c1, toSend, err) =>
    match err with
    | some e => some (c1, none, some e)
    | none =>
      match toSend with
      | none => some (c1, none, none)
      | some ts => some (c1, some (ts.tlv P), none)

/-- The method `smpStateExpect1.startAuthenticate`: the conversation after the call, the
returned TLVs and the returned `error`. -/
def smpStateExpect1.startAuthenticate (P : Primitives) (c : Conversation) (question : String)
    (mutualSecret : List Nat) : Conversation × List tlv × Option error :=
  if !c.IsEncrypted then (c, [], some error.errCantAuthenticateWithoutEncryption)
  else
    let secret := P.generateSMPSecret (P.DefaultFingerprint c.OurKey.PublicKey)
      (P.DefaultFingerprint c.TheirKey) c.ssid mutualSecret
    let c1 := { c with smp.secret := secret }
    let r := P.generateSMP1 c1
    let s0 := r.1
    if !r.2 then (c1, [], some error.errShortRandomRead)
    else
      let s1 : smp1State :=
        if question != "" then
          { s0 with msg.hasQuestion := true, msg.question := question }
        else s0
      ({ c1 with smp.s1 := some s1 }, [s1.msg.tlv P], none)

/-- The method `smpStateBase.startAuthenticate`: the result of
`smpStateExpect1{}.startAuthenticate` with the SMP-Abort TLV put in front of its TLVs. -/
def smpStateBase.startAuthenticate (P : Primitives) (c : Conversation) (question : String)
    (mutualSecret : List Nat) : Conversation × List tlv × Option error :=
  let r := smpStateExpect1.startAuthenticate P c question mutualSecret
  (r.1, [smpMessageAbort.tlv P {}] ++ r.2.1, r.2.2)

/-- The interface call `s.startAuthenticate(c, question, mutualSecret)`. -/
def smpState.startAuthenticate (P : Primitives) (s : smpState) (c : Conversation)
    (question : String) (mutualSecret : List Nat) : Conversation × List tlv × Option error :=
  match s with
  | smpState.smpStateExpect1 => smpStateExpect1.startAuthenticate P c question mutualSecret
  | smpState.smpStateExpect2 => smpStateBase.startAuthenticate P c question mutualSecret
  | smpState.smpStateExpect3 => smpStateBase.startAuthenticate P c question mutualSecret
  | smpState.smpStateExpect4 => smpStateBase.startAuthenticate P c question mutualSecret

/-! ## Vocabulary of the transition table -/

/-- The kind of an SMP message: `k` for SMP-k, and `6` (its TLV type) for SMP-Abort. -/
def smpMessage.kind : smpMessage → Nat
  | smpMessage.smp1 _ => 1
  | smpMessage.smp2 _ => 2
  | smpMessage.smp3 _ => 3
  | smpMessage.smp4 _ => 4
  | smpMessage.abort _ => 6

/-- The message kind a state expects: EXPECTk expects SMP-k. -/
def smpState.expects : smpState → Nat
  | smpState.smpStateExpect1 => 1
  | smpState.smpStateExpect2 => 2
  | smpState.smpStateExpect3 => 3
  | smpState.smpStateExpect4 => 4

/-! ## Concrete inputs -/

/-- A conversation in SMP state `st` and message state `ms`, with small keys, the session
id `1 .. 8` and an empty SMP substate. -/
def sampleConversation (st : smpState) (ms : msgState) : Conversation :=
  { version := some otrVersion.otrV3
    Policies := 0
    ourInstanceTag := 0x101
    theirInstanceTag := 0x102
    msgState := ms
    whitespaceState := 0
    debug := false
    OurKey := { PublicKey := { P := 23, Q := 11, G := 4, Y := 8 }, X := 9 }
    TheirKey := { P := 23, Q := 11, G := 4, Y := 13 }
    ssid := [1, 2, 3, 4, 5, 6, 7, 8]
    smp := { state := st, question := none, secret := some 5,
             s1 := some { params := [3], msg := { mpis := [9], hasQuestion := false, question := "" } },
             s2 := some { params := [4], msg := { mpis := [10] } },
             s3 := some { params := [6], msg := { mpis := [12] } } } }

/-- Primitives whose checks answer `verdict`, whose generators return fixed values with the
flag `ok`, and whose body encoding is one byte per value. -/
def samplePrimitives (verdict : Option error) (ok : Bool) : Primitives :=
  { verifySMP1 := fun _ _ => verdict
    verifySMP2 := fun _ _ _ => verdict
    verifySMP3 := fun _ _ _ => verdict
    verifySMP3ProtocolSuccess := fun _ _ _ => verdict
    verifySMP4 := fun _ _ _ => verdict
    verifySMP4ProtocolSuccess := fun _ _ _ _ => verdict
    generateSMP1 := fun _ => ({ params := [1], msg := { mpis := [21], hasQuestion := false, question := "" } }, ok)
    generateSMP2 := fun _ _ _ => ({ params := [2], msg := { mpis := [22] } }, ok)
    generateSMP3 := fun _ _ _ _ => ({ params := [3], msg := { mpis := [23] } }, ok)
    generateSMP4 := fun _ _ _ _ => ({ params := [4], msg := { mpis := [24] } }, ok)
    generateSMPSecret := fun a b s m => some (Int.ofNat (a.sum + 2 * b.sum + 3 * s.sum + 5 * m.sum))
    DefaultFingerprint := fun k => [k.Y.toNat % 256]
    smpBody := fun l => l.map fun x => x.toNat % 256 }

/-- An SMP-1 message without a question. -/
def sampleSMP1 : smp1Message := { mpis := [31], hasQuestion := false, question := "" }

/-- An SMP-1 message that carries a question. -/
def sampleSMP1Q : smp1Message := { mpis := [31], hasQuestion := true, question := "who?" }

/-! ## data_msg.go

A byte slice that is sliced again is a `ByteSlice`: its elements, and the elements of its
backing array that lie beyond its length, up to its capacity. A slice expression is bounded
by the capacity, as in Go, and not by the length. A byte slice that is only read within its
length is the list of its elements. -/

/-- The outcome of code that may fault at run time (an out-of-range slice access), or that
the embedding stops for lack of fuel. -/
inductive Outcome (α : Type) where
  | ok (a : α)
  | fault
  | outOfFuel
  deriving DecidableEq, Repr

/-- A Go `[]byte` value: `bytes` are its `len` elements, `spare` the elements of its backing
array from its length up to its capacity. -/
structure ByteSlice where
  bytes : List Nat
  spare : List Nat
  deriving DecidableEq, Repr

/-- The length `len(b)`. -/
def ByteSlice.len (b : ByteSlice) : Nat := b.bytes.length

/-- The capacity `cap(b)`. -/
def ByteSlice.cap (b : ByteSlice) : Nat := b.bytes.length + b.spare.length

/-- The backing array of `b`, from the start of `b` up to its capacity. -/
def ByteSlice.backing (b : ByteSlice) : List Nat := b.bytes ++ b.spare

/-- The slice expression `b[lo:hi]` on a slice: Go requires `lo <= hi <= cap(b)`, so the
result may reach into the backing array beyond `len(b)`; `none` is the out-of-range fault.
The result holds the `hi - lo` elements of the new slice. -/
def sliceBytes (b : ByteSlice) (lo hi : Nat) : Option (List Nat) :=
  if lo ≤ hi ∧ hi ≤ b.cap then some ((b.backing.drop lo).take (hi - lo)) else none

/-- The function `binary.BigEndian.Uint16`: `uint16(b[1]) | uint16(b[0])<<8`; `none` is the
fault of the bounds check `b[1]`. -/
def Uint16 : List Nat → Option Nat
  | b0 :: b1 :: _ => some (b0 % 256 * 256 + b1 % 256)
  | _ => none

/-- The body of the parsing loop of `genDataMsg` at position `index`: the record read and
`endOfTLV`; `none` is an out-of-range fault. -/
def readTLV (tlvsBytes : ByteSlice) (index : Nat) : Option (tlv × Nat) := do
  let typeBytes ← sliceBytes tlvsBytes index (index + 2)
  let tlvType ← Uint16 typeBytes
  let lengthBytes ← sliceBytes tlvsBytes (index + 2) (index + 4)
  let tlvLength ← Uint16 lengthBytes
  let endOfTLV := index + 4 + tlvLength
  let tlvValue ← sliceBytes tlvsBytes (index + 4) endOfTLV
  pure ({ tlvType := tlvType, tlvLength := tlvLength, tlvValue := tlvValue }, endOfTLV)

/-- The parsing loop `for index < len(tlvsBytes) { ... }` of `genDataMsg`, started at
`index` with the records `tlvs` read so far; `fuel` bounds the number of iterations. -/
def tlvLoop (tlvsBytes : ByteSlice) : Nat → Nat → List tlv → Outcome (List tlv)
  | 0, index, tlvs =>
    if index < tlvsBytes.len then Outcome.outOfFuel else Outcome.ok tlvs
  | fuel + 1, index, tlvs =>
    if index < tlvsBytes.len then
      match readTLV tlvsBytes index with
      | none => Outcome.fault
      | some (atlv, endOfTLV) => tlvLoop tlvsBytes fuel endOfTLV (tlvs ++ [atlv])
    else Outcome.ok tlvs

/-- The whole loop of `genDataMsg`: `index := 0`, no record read yet, and one unit of fuel
for every byte of the input (of its length). -/
def parseTLVs (tlvsBytes : ByteSlice) : Outcome (List tlv) :=
  tlvLoop tlvsBytes tlvsBytes.len 0 []

/-- The struct `dhMessage` (the message header), with the fields `genDataMsg` sets. -/
structure dhMessage where
  protocolVersion : Nat
  needInstanceTag : Bool
  senderInstanceTag : Nat
  receiverInstanceTag : Nat
  deriving DecidableEq, Repr

/-- The struct `dataMsg`, with the fields `genDataMsg` sets: `topHalfCtr` is an `[8]byte`,
`authenticator` a `[20]byte`, `y` a `*big.Int`. -/
structure dataMsg where
  dhMessage : dhMessage
  flag : Nat
  senderKeyID : Nat
  recipientKeyID : Nat
  y : Option Int
  topHalfCtr : List Nat
  dataMsgEncrypted : List Nat
  authenticator : List Nat
  oldRevealKeyMAC : List Nat
  deriving DecidableEq, Repr

/-- A DH key pair, as in `c.ourCurrentDHKeys.pub`. -/
structure dhKeyPair where
  pub : Option Int
  priv : Option Int
  deriving DecidableEq, Repr

/-- The struct `akeContext`, with the fields `genDataMsg` reads: the protocol version, the
key ids (`uint32`) and our current DH keys. -/
structure akeContext where
  version : otrVersion
  ourKeyID : Nat
  theirKeyID : Nat
  ourCurrentDHKeys : dhKeyPair
  deriving DecidableEq, Repr

/-- Modelled from the spec: `protocolVersion()` is defined outside the embedded source
files; the wire versions are `0x0002` for OTR v2 and `0x0003` for OTR v3. -/
def akeContext.protocolVersion (c : akeContext) : Nat :=
  match c.version with
  | otrVersion.otrV2 => 2
  | otrVersion.otrV3 => 3

/-- Modelled from the spec: `needInstanceTag()` is defined outside the embedded source
files; only the v3 envelope carries instance tags. -/
def akeContext.needInstanceTag (c : akeContext) : Bool :=
  match c.version with
  | otrVersion.otrV2 => false
  | otrVersion.otrV3 => true

/-- The value `msgHeader` built by `genDataMsg`. -/
def akeContext.msgHeader (c : akeContext) : dhMessage :=
  { protocolVersion := c.protocolVersion
    needInstanceTag := c.needInstanceTag
    senderInstanceTag := 0
    receiverInstanceTag := 0 }

/-- The value `dataMessage` built by `genDataMsg`; `c.ourKeyID - 1` is `uint32`
arithmetic. -/
def akeContext.dataMessage (c : akeContext) : dataMsg :=
  { dhMessage := c.msgHeader
    flag := 0x00
    senderKeyID := (c.ourKeyID + 4294967295) % 4294967296
    recipientKeyID := c.theirKeyID
    y := c.ourCurrentDHKeys.pub
    topHalfCtr := List.replicate 8 0
    dataMsgEncrypted := []
    authenticator := List.replicate 20 0
    oldRevealKeyMAC := [] }

/-- The method `akeContext.genDataMsg`: the parsing loop runs first (its records are not
used afterwards), then `dataMessage.serialize()` is returned. The method writes no field of
the context. `serialize` is defined outside the embedded source files and is a parameter. -/
def akeContext.genDataMsg (serialize : dataMsg → List Nat) (c : akeContext)
    (tlvsBytes : ByteSlice) : Outcome (List Nat) :=
  match parseTLVs tlvsBytes with
  | Outcome.ok _ => Outcome.ok (serialize c.dataMessage)
  | Outcome.fault => Outcome.fault
  | Outcome.outOfFuel => Outcome.outOfFuel

/-! ## TLV records on the wire -/

/-- Modelled from the spec: `tlv.serialize()` is defined outside the embedded source files.
Each TLV is type (big-endian uint16), length (big-endian uint16) and the value bytes. -/
def tlv.serialize (t : tlv) : List Nat :=
  [t.tlvType / 256 % 256, t.tlvType % 256, t.tlvLength / 256 % 256, t.tlvLength % 256] ++
    t.tlvValue

/-- The concatenation of the wire forms of a list of TLV records. -/
def serializeTLVs : List tlv → List Nat
  | [] => []
  | t :: ts => t.serialize ++ serializeTLVs ts

/-- A well-formed TLV record: the type is a `uint16`, and `tlvLength` is the length of
`tlvValue`, at most 65535. -/
def tlv.wellFormed (t : tlv) : Prop :=
  t.tlvType < 65536 ∧ t.tlvLength = t.tlvValue.length ∧ t.tlvLength < 65536

instance (t : tlv) : Decidable t.wellFormed := by
  unfold tlv.wellFormed
  infer_instance

/-- A byte string that is a concatenation of well-formed TLV records. -/
def wellFormedTLVBytes (b : List Nat) : Prop :=
  ∃ ts : List tlv, (∀ t ∈ ts, t.wellFormed) ∧ b = serializeTLVs ts

/-- The numeric value of a big-endian counter. -/
def ctrValue (b : List Nat) : Nat :=
  b.foldl (fun acc x => acc * 256 + x) 0

/-- A v3 context with our key id `ourKeyID`, the peer's key id 3 and the DH public key 5. -/
def sampleContext (ourKeyID : Nat) : akeContext :=
  { version := otrVersion.otrV3
    ourKeyID := ourKeyID
    theirKeyID := 3
    ourCurrentDHKeys := { pub := some 5, priv := some 7 } }

/-- A stand-in for `dataMsg.serialize`: the key ids, the counter and the payload. -/
def sampleSerialize (m : dataMsg) : List Nat :=
  [m.flag, m.senderKeyID, m.recipientKeyID] ++ m.topHalfCtr ++ m.dataMsgEncrypted

/-! ## The plaintext body of a data message -/

/-- Modelled from the spec: the struct `dataMsgPlainText` is declared outside the embedded
source files; the tests name its fields `nul` (a byte) and `tlvs`. -/
structure dataMsgPlainText where
  nul : Nat
  tlvs : List tlv
  deriving DecidableEq, Repr

/-- Modelled from the spec: the error kind `CorruptEncryptedMessage` (the body of a
decrypted message is ill-formed). -/
def errCorruptEncryptedMessage : error := error.other "corrupt encrypted message"

/-- Modelled from the spec: `dataMsgPlainText.serialize()` is defined outside the embedded
source files. The body is the `nul` byte followed by the TLV records, each as type
(uint16), length (uint16) and the value bytes. -/
def dataMsgPlainText.serialize (d : dataMsgPlainText) : List Nat :=
  d.nul :: serializeTLVs d.tlvs

/-- Modelled from the spec: `dataMsgPlainText.deserialize(msg)` is defined outside the
embedded source files. It reads the `nul` byte and then the TLV records (with the parsing
loop that `genDataMsg` uses, on the bytes of the message alone); a body without the `nul`
byte or with a truncated record is ill-formed. The result is the struct after the call and
the returned `error`. -/
def dataMsgPlainText.deserialize (d : dataMsgPlainText) (msg : List Nat) :
    dataMsgPlainText × Option error :=
  match msg with
  | [] => (d, some errCorruptEncryptedMessage)
  | nul :: tlvsBytes =>
    match parseTLVs { bytes := tlvsBytes, spare := [] } with
    | Outcome.ok tlvs => ({ nul := nul, tlvs := tlvs }, none)
    | Outcome.fault => (d, some errCorruptEncryptedMessage)
    | Outcome.outOfFuel => (d, some errCorruptEncryptedMessage)

/-! ## The binary envelope -/

/-- Modelled from the spec: `newOtrError` is defined outside the embedded source files; it
makes an error value from its message text. -/
def newOtrError (text : String) : error := error.other text

/-- Modelled from the spec: the error kind `InvalidMessage` (structural parse failure). -/
def errInvalidOTRMessage : error := newOtrError "invalid OTR message"

/-- Modelled from the spec: the error kind `WrongProtocolVersion`. -/
def errWrongProtocolVersion : error := newOtrError "wrong protocol version"

/-- Modelled from the spec: the wire number of a protocol version, `0x0002` or `0x0003`. -/
def otrVersion.protocolVersion : otrVersion → Nat
  | otrVersion.otrV2 => 2
  | otrVersion.otrV3 => 3

/-- Modelled from the spec: the message types of the wire protocol: `0x02` DH-Commit,
`0x0A` DH-Key, `0x11` Reveal-Signature, `0x12` Signature, `0x03` Data. -/
def knownMessageTypes : List Nat := [0x02, 0x0A, 0x11, 0x12, 0x03]

/-- The hexadecimal digits of a number, as printed after `0x`. -/
def hexDigits (n : Nat) : String := String.mk (Nat.toDigits 16 n)

/-- The result of decoding an envelope: an error, or the message type and body handed to
the handler of that type. -/
inductive Decoded where
  | failed (e : error)
  | dispatched (msgType : Nat) (body : List Nat)
  deriving DecidableEq, Repr

/-- Modelled from the spec: `Conversation.receiveDecoded` is defined outside the embedded
source files (only its tests are among them). The envelope is version (uint16), type (uint8)
and, for v3, the sender and receiver instance tags (uint32 each). A message too short to
hold a version is invalid; the version is checked next (a conversation without a version
takes the message's version when `allows` says the policy admits it); then the header must
be complete; then the type byte is dispatched, an unknown one being an error. The result is
the conversation after the call and the decoding. -/
def Conversation.receiveDecoded (allows : Nat → otrVersion → Bool) (c : Conversation)
    (message : List Nat) : Conversation × Decoded :=
  match message with
  | b0 :: b1 :: rest =>
    let messageVersion := b0 % 256 * 256 + b1 % 256
    let resolved : Option otrVersion :=
      match c.version with
      | some v => some v
      | none =>
        if messageVersion = 3 ∧ allows c.Policies otrVersion.otrV3 = true then
          some otrVersion.otrV3
        else if messageVersion = 2 ∧ allows c.Policies otrVersion.otrV2 = true then
          some otrVersion.otrV2
        else none
    match resolved with
    | none => (c, Decoded.failed errWrongProtocolVersion)
    | some v =>
      let c1 := { c with version := some v }
      if v.protocolVersion ≠ messageVersion then (c1, Decoded.failed errWrongProtocolVersion)
      else
        match rest with
        | [] => (c1, Decoded.failed errInvalidOTRMessage)
        | msgType :: afterType =>
          let tagBytes := if v = otrVersion.otrV3 then 8 else 0
          if afterType.length < tagBytes then (c1, Decoded.failed errInvalidOTRMessage)
          else if msgType ∈ knownMessageTypes then
            (c1, Decoded.dispatched msgType (afterType.drop tagBytes))
          else (c1, Decoded.failed (newOtrError ("unknown message type 0x" ++ hexDigits msgType)))
  | _ => (c, Decoded.failed errInvalidOTRMessage)

/-! ## A run of the SMP between two peers -/

/-- The exchange between two peers: the TLV `t` is in flight, to the responder when
`toResponder` holds and to the initiator otherwise; the receiving peer decodes it with
`parse` (the decoding of a TLV into an SMP message is defined outside the embedded source
files) and hands it to `receiveSMP`; a TLV that `receiveSMP` returns is relayed to the other
peer, and the exchange ends when none is returned. The result is the pair (initiator,
responder) at the end; `fuel` bounds the number of deliveries. -/
def relayRun (P : Primitives) (parse : tlv → Option smpMessage) :
    Nat → Bool → Conversation → Conversation → tlv → Outcome (Conversation × Conversation)
  | 0, _, _, _, _ => Outcome.outOfFuel
  | fuel + 1, toResponder, initiator, responder, t =>
    match parse t with
    | none => Outcome.ok (initiator, responder)
    | some m =>
      match (if toResponder then responder else initiator).receiveSMP P m with
      | none => Outcome.fault
      | some (c1, reply, _) =>
        let initiator1 := if toResponder then initiator else c1
        let responder1 := if toResponder then c1 else responder
        match reply with
        | none => Outcome.ok (initiator1, responder1)
        | some t1 => relayRun P parse fuel (!toResponder) initiator1 responder1 t1

/-- A decoder for the TLVs that `samplePrimitives` encodes: the TLV type selects the kind of
message and each value byte is one value of the message. -/
def sampleParse (t : tlv) : Option smpMessage :=
  if t.tlvType = 2 then
    some (smpMessage.smp1
      { mpis := t.tlvValue.map Int.ofNat, hasQuestion := false, question := "" })
  else if t.tlvType = 3 then some (smpMessage.smp2 { mpis := t.tlvValue.map Int.ofNat })
  else if t.tlvType = 4 then some (smpMessage.smp3 { mpis := t.tlvValue.map Int.ofNat })
  else if t.tlvType = 5 then some (smpMessage.smp4 { mpis := t.tlvValue.map Int.ofNat })
  else if t.tlvType = 6 then some (smpMessage.abort {})
  else none

/-- Primitives for peers whose secrets differ: every proof verifies and every generator
succeeds, and the protocol-success check of SMP-3 fails. -/
def mismatchPrimitives : Primitives :=
  { samplePrimitives none true with
    verifySMP3ProtocolSuccess := fun _ _ _ => some (error.other "protocol failed") }

/-! ## restart -/

/-- The method `Conversation.restart`: `c.smp.state, ret, _ = abortStateMachine()` and
`return ret.tlv().serialize()`; the result is the conversation after the call and the
returned bytes. A method call on a nil `ret` would be a run-time fault (`none`). -/
def Conversation.restart (P : Primitives) (c : Conversation) :
    Option (Conversation × List Nat) :=
  match abortStateMachine with
  | (st, some ret, _) => some ({ c with smp.state := st }, (ret.tlv P).serialize)
  | (_, none, _) => none

/-! ## Theorems -/

theorem Cmp_ne_one (x y : Int) : (Cmp x y != 1) = true ↔ x ≤ y := by
  unfold Cmp
  split_ifs with h1 h2 <;> simp <;> omega

theorem Cmp_ne_neg_one (x y : Int) : (Cmp x y != -1) = true ↔ y ≤ x := by
  unfold Cmp
  split_ifs with h1 h2 <;> simp <;> omega

theorem isGroupElement_iff (n : Int) : isGroupElement n = true ↔ 2 ≤ n ∧ n ≤ p - 2 := by
  unfold isGroupElement
  rw [Bool.and_eq_true, Cmp_ne_one, Cmp_ne_neg_one]
  simp [g1, pMinusTwo]

/-- C1: for every integer `n`, `isGroupElement n` is true if and only if `2 ≤ n ≤ p - 2`;
in particular it is false at `0`, `1`, `p - 1`, `p` and at every negative `n`. -/
theorem isGroupElement_spec :
    (∀ n : Int, isGroupElement n = true ↔ 2 ≤ n ∧ n ≤ p - 2) ∧
    isGroupElement 0 = false ∧ isGroupElement 1 = false ∧
    isGroupElement (p - 1) = false ∧ isGroupElement p = false ∧
    ∀ n : Int, n < 0 → isGroupElement n = false := by
  refine ⟨isGroupElement_iff, ?_, ?_, ?_, ?_, ?_⟩
  · rw [← Bool.not_eq_true, isGroupElement_iff]; omega
  · rw [← Bool.not_eq_true, isGroupElement_iff]; omega
  · rw [← Bool.not_eq_true, isGroupElement_iff]; omega
  · rw [← Bool.not_eq_true, isGroupElement_iff]; omega
  · intro n hn
    rw [← Bool.not_eq_true, isGroupElement_iff]; omega

/-- C1, at concrete inputs: `-5` is negative and rejected, `2` is accepted. -/
theorem isGroupElement_spec_witness :
    (-5 : Int) < 0 ∧ isGroupElement (-5) = false ∧ isGroupElement 2 = true :=
  ⟨by decide, isGroupElement_spec.2.2.2.2.2 (-5) (by decide),
    (isGroupElement_spec.1 2).2 ⟨by decide, by decide⟩⟩

/-- The default methods of `smpStateBase`: a message of kind 1 to 4 that the state does not
expect yields the abort message with a nil error and the state EXPECT1. -/
theorem receiveSMP_of_unexpected (P : Primitives) (c : Conversation) (m : smpMessage)
    (hkind : m.kind = 1 ∨ m.kind = 2 ∨ m.kind = 3 ∨ m.kind = 4)
    (hne : m.kind ≠ c.smp.state.expects) :
    c.receiveSMP P m =
      some ({ c with smp.state := smpState.smpStateExpect1 },
        some (smpMessageAbort.tlv P {}), none) := by
  cases m <;> cases hs : c.smp.state <;>
    simp_all [smpMessage.kind, smpState.expects, Conversation.receiveSMP,
      smpMessage.receivedMessage, smp1Message.receivedMessage, smp2Message.receivedMessage,
      smp3Message.receivedMessage, smp4Message.receivedMessage, smpState.receiveMessage1,
      smpState.receiveMessage2, smpState.receiveMessage3, smpState.receiveMessage4,
      smpStateBase.receiveMessage1, smpStateBase.receiveMessage2,
      smpStateBase.receiveMessage3, smpStateBase.receiveMessage4, storeState,
      abortStateMachine, abortStateMachineWith, smpMessage.tlv]

/-- C2: in every state, an SMP message of kind 1 to 4 that is not the one the state
expects makes `receiveSMP` return the SMP-Abort TLV with a nil error, set the SMP state to
EXPECT1 and change no other field of the conversation. -/
theorem unexpected_message_aborts (P : Primitives) (c : Conversation) (m : smpMessage)
    (hkind : m.kind = 1 ∨ m.kind = 2 ∨ m.kind = 3 ∨ m.kind = 4)
    (hne : m.kind ≠ c.smp.state.expects) :
    c.receiveSMP P m =
      some ({ c with smp.state := smpState.smpStateExpect1 },
        some (smpMessageAbort.tlv P {}), none) :=
  receiveSMP_of_unexpected P c m hkind hne

/-- C2, at a concrete input: SMP-3 arriving in EXPECT2. -/
theorem unexpected_message_aborts_witness :
    (sampleConversation smpState.smpStateExpect2 msgState.encrypted).receiveSMP
        (samplePrimitives none true) (smpMessage.smp3 { mpis := [7] }) =
      some (sampleConversation smpState.smpStateExpect1 msgState.encrypted,
        some { tlvType := 6, tlvLength := 0, tlvValue := [] }, none) :=
  unexpected_message_aborts (samplePrimitives none true)
    (sampleConversation smpState.smpStateExpect2 msgState.encrypted)
    (smpMessage.smp3 { mpis := [7] }) (by decide) (by decide)

/-- C3: when the expected message arrives, its checks pass and the reply is generated,
`receiveSMP` follows the transition table with a nil error: EXPECT1 + SMP-1 returns the TLV
of the generated SMP-2 message and moves to EXPECT3; EXPECT2 + SMP-2 returns the SMP-3 TLV
and moves to EXPECT4; EXPECT3 + SMP-3 returns the SMP-4 TLV and moves to EXPECT1;
EXPECT4 + SMP-4 returns no TLV and moves to EXPECT1. -/
theorem receiveSMP_transition_table (P : Primitives) (c : Conversation) :
    (∀ m : smp1Message, c.smp.state = smpState.smpStateExpect1 →
      P.verifySMP1 c m = none →
      (P.generateSMP2 (storeQuestion c m) (storeQuestion c m).smp.secret m).2 = true →
      c.receiveSMP P (smpMessage.smp1 m) =
        some ({ storeQuestion c m with smp.state := smpState.smpStateExpect3 },
          some ((P.generateSMP2 (storeQuestion c m) (storeQuestion c m).smp.secret m).1.msg.tlv P),
          none)) ∧
    (∀ (m : smp2Message) (s1 : smp1State), c.smp.state = smpState.smpStateExpect2 →
      P.verifySMP2 c c.smp.s1 m = none → c.smp.s1 = some s1 →
      (P.generateSMP3 c c.smp.secret s1 m).2 = true →
      c.receiveSMP P (smpMessage.smp2 m) =
        some ({ c with smp.state := smpState.smpStateExpect4 },
          some ((P.generateSMP3 c c.smp.secret s1 m).1.msg.tlv P), none)) ∧
    (∀ (m : smp3Message) (s2 : smp2State), c.smp.state = smpState.smpStateExpect3 →
      P.verifySMP3 c c.smp.s2 m = none → P.verifySMP3ProtocolSuccess c c.smp.s2 m = none →
      c.smp.s2 = some s2 → (P.generateSMP4 c c.smp.secret s2 m).2 = true →
      c.receiveSMP P (smpMessage.smp3 m) =
        some ({ c with smp.state := smpState.smpStateExpect1 },
          some ((P.generateSMP4 c c.smp.secret s2 m).1.msg.tlv P), none)) ∧
    (∀ m : smp4Message, c.smp.state = smpState.smpStateExpect4 →
      P.verifySMP4 c c.smp.s3 m = none →
      P.verifySMP4ProtocolSuccess c c.smp.s1 c.smp.s3 m = none →
      c.receiveSMP P (smpMessage.smp4 m) =
        some ({ c with smp.state := smpState.smpStateExpect1 }, none, none)) := by
  refine ⟨?_, ?_, ?_, ?_⟩
  · intro m hs hv hok
    simp [Conversation.receiveSMP, smpMessage.receivedMessage, smp1Message.receivedMessage,
      smpState.receiveMessage1, smpStateExpect1.receiveMessage1, storeState, hs, hv, hok,
      smpMessage.tlv]
  · intro m s1 hs hv h1 hok
    rw [h1] at hv
    simp [Conversation.receiveSMP, smpMessage.receivedMessage, smp2Message.receivedMessage,
      smpState.receiveMessage2, smpStateExpect2.receiveMessage2, storeState, hs, hv, h1, hok,
      smpMessage.tlv]
  · intro m s2 hs hv hp h2 hok
    rw [h2] at hv hp
    simp [Conversation.receiveSMP, smpMessage.receivedMessage, smp3Message.receivedMessage,
      smpState.receiveMessage3, smpStateExpect3.receiveMessage3, storeState, hs, hv, hp, h2,
      hok, smpMessage.tlv]
  · intro m hs hv hp
    simp [Conversation.receiveSMP, smpMessage.receivedMessage, smp4Message.receivedMessage,
      smpState.receiveMessage4, smpStateExpect4.receiveMessage4, storeState, hs, hv, hp]

/-- C3, at concrete inputs: one full pass over the four rows of the table, with the TLV
types 3, 4 and 5 of the replies. -/
theorem receiveSMP_transition_table_witness :
    (sampleConversation smpState.smpStateExpect1 msgState.encrypted).receiveSMP
        (samplePrimitives none true) (smpMessage.smp1 sampleSMP1) =
      some (sampleConversation smpState.smpStateExpect3 msgState.encrypted,
        some { tlvType := 3, tlvLength := 1, tlvValue := [22] }, none) ∧
    (sampleConversation smpState.smpStateExpect2 msgState.encrypted).receiveSMP
        (samplePrimitives none true) (smpMessage.smp2 { mpis := [7] }) =
      some (sampleConversation smpState.smpStateExpect4 msgState.encrypted,
        some { tlvType := 4, tlvLength := 1, tlvValue := [23] }, none) ∧
    (sampleConversation smpState.smpStateExpect3 msgState.encrypted).receiveSMP
        (samplePrimitives none true) (smpMessage.smp3 { mpis := [7] }) =
      some (sampleConversation smpState.smpStateExpect1 msgState.encrypted,
        some { tlvType := 5, tlvLength := 1, tlvValue := [24] }, none) ∧
    (sampleConversation smpState.smpStateExpect4 msgState.encrypted).receiveSMP
        (samplePrimitives none true) (smpMessage.smp4 { mpis := [7] }) =
      some (sampleConversation smpState.smpStateExpect1 msgState.encrypted, none, none) :=
  ⟨(receiveSMP_transition_table (samplePrimitives none true)
      (sampleConversation smpState.smpStateExpect1 msgState.encrypted)).1
      sampleSMP1 rfl rfl rfl,
   (receiveSMP_transition_table (samplePrimitives none true)
      (sampleConversation smpState.smpStateExpect2 msgState.encrypted)).2.1
      { mpis := [7] } _ rfl rfl rfl rfl,
   (receiveSMP_transition_table (samplePrimitives none true)
      (sampleConversation smpState.smpStateExpect3 msgState.encrypted)).2.2.1
      { mpis := [7] } _ rfl rfl rfl rfl rfl,
   (receiveSMP_transition_table (samplePrimitives none true)
      (sampleConversation smpState.smpStateExpect4 msgState.encrypted)).2.2.2
      { mpis := [7] } rfl rfl rfl⟩

/-- C4: in every state, an SMP-Abort message makes `receiveSMP` set the SMP state to
EXPECT1, return no TLV and no error, and leave every other field unchanged. -/
theorem receiveSMP_abort (P : Primitives) (c : Conversation) (a : smpMessageAbort) :
    c.receiveSMP P (smpMessage.abort a) =
      some ({ c with smp.state := smpState.smpStateExpect1 }, none, none) := by
  simp [Conversation.receiveSMP, smpMessage.receivedMessage, smpMessageAbort.receivedMessage]

/-- C5: evaluation at the failing input. In EXPECT2, an SMP-2 message whose `verifySMP2`
fails makes the state machine produce the abort message next to the error, and
`receiveSMP` returns the error with no TLV: the abort message is not handed to the caller. -/
theorem receiveSMP_failure_returns_no_tlv :
    smp2Message.receivedMessage (samplePrimitives (some (error.other "proof")) true)
        { mpis := [7] } (sampleConversation smpState.smpStateExpect2 msgState.encrypted) =
      some (sampleConversation smpState.smpStateExpect1 msgState.encrypted,
        some (smpMessage.abort {}), some (error.other "proof")) ∧
    (sampleConversation smpState.smpStateExpect2 msgState.encrypted).receiveSMP
        (samplePrimitives (some (error.other "proof")) true) (smpMessage.smp2 { mpis := [7] }) =
      some (sampleConversation smpState.smpStateExpect1 msgState.encrypted, none,
        some (error.other "proof")) ∧
    (sampleConversation smpState.smpStateExpect2 msgState.encrypted).receiveSMP
        (samplePrimitives none false) (smpMessage.smp2 { mpis := [7] }) =
      some (sampleConversation smpState.smpStateExpect1 msgState.encrypted, none,
        some error.errShortRandomRead) :=
  ⟨rfl, rfl, rfl⟩

/-- C6: for the message a state expects, a failing check (`verifySMPk`, or the
protocol-success check that follows a passing `verifySMP3` or `verifySMP4`) with error `e`
makes `receiveSMP` return exactly `e`, and the SMP state afterwards is EXPECT1. -/
theorem receiveSMP_verification_failure (P : Primitives) (c : Conversation) (e : error) :
    (∀ m : smp1Message, c.smp.state = smpState.smpStateExpect1 →
      P.verifySMP1 c m = some e →
      c.receiveSMP P (smpMessage.smp1 m) =
        some ({ c with smp.state := smpState.smpStateExpect1 }, none, some e)) ∧
    (∀ m : smp2Message, c.smp.state = smpState.smpStateExpect2 →
      P.verifySMP2 c c.smp.s1 m = some e →
      c.receiveSMP P (smpMessage.smp2 m) =
        some ({ c with smp.state := smpState.smpStateExpect1 }, none, some e)) ∧
    (∀ m : smp3Message, c.smp.state = smpState.smpStateExpect3 →
      P.verifySMP3 c c.smp.s2 m = some e →
      c.receiveSMP P (smpMessage.smp3 m) =
        some ({ c with smp.state := smpState.smpStateExpect1 }, none, some e)) ∧
    (∀ m : smp3Message, c.smp.state = smpState.smpStateExpect3 →
      P.verifySMP3 c c.smp.s2 m = none → P.verifySMP3ProtocolSuccess c c.smp.s2 m = some e →
      c.receiveSMP P (smpMessage.smp3 m) =
        some ({ c with smp.state := smpState.smpStateExpect1 }, none, some e)) ∧
    (∀ m : smp4Message, c.smp.state = smpState.smpStateExpect4 →
      P.verifySMP4 c c.smp.s3 m = some e →
      c.receiveSMP P (smpMessage.smp4 m) =
        some ({ c with smp.state := smpState.smpStateExpect1 }, none, some e)) ∧
    (∀ m : smp4Message, c.smp.state = smpState.smpStateExpect4 →
      P.verifySMP4 c c.smp.s3 m = none →
      P.verifySMP4ProtocolSuccess c c.smp.s1 c.smp.s3 m = some e →
      c.receiveSMP P (smpMessage.smp4 m) =
        some ({ c with smp.state := smpState.smpStateExpect1 }, none, some e)) := by
  refine ⟨?_, ?_, ?_, ?_, ?_, ?_⟩
  · intro m hs hv
    simp [Conversation.receiveSMP, smpMessage.receivedMessage, smp1Message.receivedMessage,
      smpState.receiveMessage1, smpStateExpect1.receiveMessage1, storeState, hs, hv,
      abortStateMachineWith]
  · intro m hs hv
    simp [Conversation.receiveSMP, smpMessage.receivedMessage, smp2Message.receivedMessage,
      smpState.receiveMessage2, smpStateExpect2.receiveMessage2, storeState, hs, hv,
      abortStateMachineWith]
  · intro m hs hv
    simp [Conversation.receiveSMP, smpMessage.receivedMessage, smp3Message.receivedMessage,
      smpState.receiveMessage3, smpStateExpect3.receiveMessage3, storeState, hs, hv,
      abortStateMachineWith]
  · intro m hs hv hp
    simp [Conversation.receiveSMP, smpMessage.receivedMessage, smp3Message.receivedMessage,
      smpState.receiveMessage3, smpStateExpect3.receiveMessage3, storeState, hs, hv, hp,
      abortStateMachineWith]
  · intro m hs hv
    simp [Conversation.receiveSMP, smpMessage.receivedMessage, smp4Message.receivedMessage,
      smpState.receiveMessage4, smpStateExpect4.receiveMessage4, storeState, hs, hv,
      abortStateMachineWith]
  · intro m hs hv hp
    simp [Conversation.receiveSMP, smpMessage.receivedMessage, smp4Message.receivedMessage,
      smpState.receiveMessage4, smpStateExpect4.receiveMessage4, storeState, hs, hv, hp,
      abortStateMachineWith]

/-- C6, at concrete inputs: a failing `verifySMP2` in EXPECT2 and a failing `verifySMP4` in
EXPECT4 both return the error of the check and end in EXPECT1. -/
theorem receiveSMP_verification_failure_witness :
    (sampleConversation smpState.smpStateExpect2 msgState.encrypted).receiveSMP
        (samplePrimitives (some (error.other "proof")) true) (smpMessage.smp2 { mpis := [7] }) =
      some (sampleConversation smpState.smpStateExpect1 msgState.encrypted, none,
        some (error.other "proof")) ∧
    (sampleConversation smpState.smpStateExpect4 msgState.encrypted).receiveSMP
        (samplePrimitives (some (error.other "proof")) true) (smpMessage.smp4 { mpis := [7] }) =
      some (sampleConversation smpState.smpStateExpect1 msgState.encrypted, none,
        some (error.other "proof")) :=
  ⟨(receiveSMP_verification_failure (samplePrimitives (some (error.other "proof")) true)
      (sampleConversation smpState.smpStateExpect2 msgState.encrypted)
      (error.other "proof")).2.1 { mpis := [7] } rfl rfl,
   (receiveSMP_verification_failure (samplePrimitives (some (error.other "proof")) true)
      (sampleConversation smpState.smpStateExpect4 msgState.encrypted)
      (error.other "proof")).2.2.2.2.1 { mpis := [7] } rfl rfl⟩

/-- C7, as stated, fails: SMP-3 arriving in EXPECT1 is not legal there, and `receiveSMP`
returns no error for it. -/
theorem illegal_message_error_counterexample :
    ¬ ∃ (c1 : Conversation) (t : Option tlv) (e : error),
      (sampleConversation smpState.smpStateExpect1 msgState.encrypted).receiveSMP
        (samplePrimitives none true) (smpMessage.smp3 { mpis := [7] }) = some (c1, t, some e) := by
  rintro ⟨c1, t, e, h⟩
  rw [receiveSMP_of_unexpected _ _ _ (by decide) (by decide)] at h
  simp at h

/-- C7, amended: for every state and every SMP message of kind 1 to 4 that is not legal in
that state, the error `receiveSMP` returns is nil: the unexpected message is answered with
the SMP-Abort TLV and is not reported to the caller as an error. -/
theorem illegal_message_error_nil (P : Primitives) (c : Conversation) (m : smpMessage)
    (hkind : m.kind = 1 ∨ m.kind = 2 ∨ m.kind = 3 ∨ m.kind = 4)
    (hne : m.kind ≠ c.smp.state.expects) :
    ∃ (c1 : Conversation) (t : tlv),
      c.receiveSMP P m = some (c1, some t, none) ∧ t = smpMessageAbort.tlv P {} :=
  ⟨_, _, receiveSMP_of_unexpected P c m hkind hne, rfl⟩

/-- C7 amended, at a concrete input: SMP-1 arriving in EXPECT4. -/
theorem illegal_message_error_nil_witness :
    ∃ (c1 : Conversation) (t : tlv),
      (sampleConversation smpState.smpStateExpect4 msgState.encrypted).receiveSMP
        (samplePrimitives none true) (smpMessage.smp1 sampleSMP1) = some (c1, some t, none) ∧
      t = smpMessageAbort.tlv (samplePrimitives none true) {} :=
  illegal_message_error_nil (samplePrimitives none true)
    (sampleConversation smpState.smpStateExpect4 msgState.encrypted)
    (smpMessage.smp1 sampleSMP1) (by decide) (by decide)

/-- C8, as stated, fails on a short random read: SMP-2 in EXPECT2 leaves the state machine
in EXPECT1 and not in EXPECT2; `startAuthenticate` in EXPECT1 has already replaced the
secret; SMP-1 with a question in EXPECT1 has already stored the question. -/
theorem short_read_counterexample :
    (((sampleConversation smpState.smpStateExpect2 msgState.encrypted).receiveSMP
        (samplePrimitives none false) (smpMessage.smp2 { mpis := [7] })).map
          (fun r => (r.1, r.2.2)) =
      some (sampleConversation smpState.smpStateExpect1 msgState.encrypted,
        some error.errShortRandomRead) ∧
      (sampleConversation smpState.smpStateExpect1 msgState.encrypted).smp.state ≠
        (sampleConversation smpState.smpStateExpect2 msgState.encrypted).smp.state) ∧
    ((smpState.smpStateExpect1.startAuthenticate (samplePrimitives none false)
        (sampleConversation smpState.smpStateExpect1 msgState.encrypted) "" [1, 2]).2.2 =
      some error.errShortRandomRead ∧
      (smpState.smpStateExpect1.startAuthenticate (samplePrimitives none false)
        (sampleConversation smpState.smpStateExpect1 msgState.encrypted) "" [1, 2]).1.smp.secret =
        some 157 ∧
      (sampleConversation smpState.smpStateExpect1 msgState.encrypted).smp.secret = some 5) ∧
    (((sampleConversation smpState.smpStateExpect1 msgState.encrypted).receiveSMP
        (samplePrimitives none false) (smpMessage.smp1 sampleSMP1Q)).map
          (fun r => (r.1.smp.question, r.2.2)) =
      some (some "who?", some error.errShortRandomRead) ∧
      (sampleConversation smpState.smpStateExpect1 msgState.encrypted).smp.question = none) := by
  refine ⟨⟨rfl, by decide⟩, ⟨rfl, rfl, rfl⟩, ⟨rfl, rfl⟩⟩

/-- C8, amended: on a short random read every operation returns `errShortRandomRead` and
changes neither `s1`, `s2`, `s3` nor any field outside the SMP substate.
`startAuthenticate` in EXPECT1 changes at most `c.smp.secret`; SMP-1 in EXPECT1 changes at
most `c.smp.question`, and nothing when the message has no question; SMP-2 in EXPECT2 and
SMP-3 in EXPECT3 change the SMP state alone, which is reset to EXPECT1. The statement is
about the returned error and the conversation after the call; it says nothing about the
TLV returned next to the error. -/
theorem short_read_amended (P : Primitives) (c : Conversation) :
    (∀ (question : String) (mutualSecret : List Nat) (c1 : Conversation),
      c.smp.state = smpState.smpStateExpect1 → c.IsEncrypted = true →
      c1 = { c with smp.secret :=
              (P.generateSMPSecret (P.DefaultFingerprint c.OurKey.PublicKey)
                (P.DefaultFingerprint c.TheirKey) c.ssid mutualSecret) } →
      (P.generateSMP1 c1).2 = false →
      (c.smp.state.startAuthenticate P c question mutualSecret).2.2 =
          some error.errShortRandomRead ∧
        { (c.smp.state.startAuthenticate P c question mutualSecret).1 with
            smp.secret := c.smp.secret } = c) ∧
    (∀ m : smp1Message, c.smp.state = smpState.smpStateExpect1 →
      P.verifySMP1 c m = none →
      (P.generateSMP2 (storeQuestion c m) (storeQuestion c m).smp.secret m).2 = false →
      ∃ c1 : Conversation,
        (c.receiveSMP P (smpMessage.smp1 m)).map (fun r => (r.1, r.2.2)) =
          some (c1, some error.errShortRandomRead) ∧
        { c1 with smp.question := c.smp.question } = c ∧
        (m.hasQuestion = false → c1 = c)) ∧
    (∀ (m : smp2Message) (s1 : smp1State), c.smp.state = smpState.smpStateExpect2 →
      P.verifySMP2 c c.smp.s1 m = none → c.smp.s1 = some s1 →
      (P.generateSMP3 c c.smp.secret s1 m).2 = false →
      (c.receiveSMP P (smpMessage.smp2 m)).map (fun r => (r.1, r.2.2)) =
        some ({ c with smp.state := smpState.smpStateExpect1 },
          some error.errShortRandomRead)) ∧
    (∀ (m : smp3Message) (s2 : smp2State), c.smp.state = smpState.smpStateExpect3 →
      P.verifySMP3 c c.smp.s2 m = none → P.verifySMP3ProtocolSuccess c c.smp.s2 m = none →
      c.smp.s2 = some s2 → (P.generateSMP4 c c.smp.secret s2 m).2 = false →
      (c.receiveSMP P (smpMessage.smp3 m)).map (fun r => (r.1, r.2.2)) =
        some ({ c with smp.state := smpState.smpStateExpect1 },
          some error.errShortRandomRead)) := by
  refine ⟨?_, ?_, ?_, ?_⟩
  · intro question mutualSecret c1 hs henc hc1 hok
    subst hc1
    have hd : c.smp.state.startAuthenticate P c question mutualSecret =
        smpStateExpect1.startAuthenticate P c question mutualSecret := by rw [hs]; rfl
    rw [hd]
    simp only [smpStateExpect1.startAuthenticate, henc, hok, Bool.not_true, Bool.not_false,
      if_true, if_false, Bool.false_eq_true, and_self]
  · intro m hs hv hok
    refine ⟨{ storeQuestion c m with smp.state := smpState.smpStateExpect1 }, ?_, ?_, ?_⟩
    · simp [Conversation.receiveSMP, smpMessage.receivedMessage, smp1Message.receivedMessage,
        smpState.receiveMessage1, smpStateExpect1.receiveMessage1, storeState, hs, hv, hok,
        abortStateMachineWith]
    · unfold storeQuestion
      split_ifs <;> simp [← hs]
    · intro hq
      simp [storeQuestion, hq, ← hs]
  · intro m s1 hs hv h1 hok
    rw [h1] at hv
    simp [Conversation.receiveSMP, smpMessage.receivedMessage, smp2Message.receivedMessage,
      smpState.receiveMessage2, smpStateExpect2.receiveMessage2, storeState, hs, hv, h1, hok,
      abortStateMachineWith]
  · intro m s2 hs hv hp h2 hok
    rw [h2] at hv hp
    simp [Conversation.receiveSMP, smpMessage.receivedMessage, smp3Message.receivedMessage,
      smpState.receiveMessage3, smpStateExpect3.receiveMessage3, storeState, hs, hv, hp, h2,
      hok, abortStateMachineWith]

/-- C8 amended, at concrete inputs: the four operations with generators that report a
short read. -/
theorem short_read_amended_witness :
    ((smpState.smpStateExpect1.startAuthenticate (samplePrimitives none false)
        (sampleConversation smpState.smpStateExpect1 msgState.encrypted) "who?" [1, 2]).2.2 =
        some error.errShortRandomRead ∧
      { (smpState.smpStateExpect1.startAuthenticate (samplePrimitives none false)
          (sampleConversation smpState.smpStateExpect1 msgState.encrypted) "who?" [1, 2]).1 with
          smp.secret := some 5 } =
        sampleConversation smpState.smpStateExpect1 msgState.encrypted) ∧
    (∃ c1 : Conversation,
      ((sampleConversation smpState.smpStateExpect1 msgState.encrypted).receiveSMP
          (samplePrimitives none false) (smpMessage.smp1 sampleSMP1)).map
            (fun r => (r.1, r.2.2)) =
        some (c1, some error.errShortRandomRead) ∧
      { c1 with smp.question := none } =
        sampleConversation smpState.smpStateExpect1 msgState.encrypted ∧
      (sampleSMP1.hasQuestion = false →
        c1 = sampleConversation smpState.smpStateExpect1 msgState.encrypted)) ∧
    ((sampleConversation smpState.smpStateExpect2 msgState.encrypted).receiveSMP
        (samplePrimitives none false) (smpMessage.smp2 { mpis := [7] })).map
          (fun r => (r.1, r.2.2)) =
      some (sampleConversation smpState.smpStateExpect1 msgState.encrypted,
        some error.errShortRandomRead) ∧
    ((sampleConversation smpState.smpStateExpect3 msgState.encrypted).receiveSMP
        (samplePrimitives none false) (smpMessage.smp3 { mpis := [7] })).map
          (fun r => (r.1, r.2.2)) =
      some (sampleConversation smpState.smpStateExpect1 msgState.encrypted,
        some error.errShortRandomRead) :=
  ⟨(short_read_amended (samplePrimitives none false)
      (sampleConversation smpState.smpStateExpect1 msgState.encrypted)).1
      "who?" [1, 2] _ rfl rfl rfl rfl,
   (short_read_amended (samplePrimitives none false)
      (sampleConversation smpState.smpStateExpect1 msgState.encrypted)).2.1
      sampleSMP1 rfl rfl rfl,
   (short_read_amended (samplePrimitives none false)
      (sampleConversation smpState.smpStateExpect2 msgState.encrypted)).2.2.1
      { mpis := [7] } _ rfl rfl rfl rfl,
   (short_read_amended (samplePrimitives none false)
      (sampleConversation smpState.smpStateExpect3 msgState.encrypted)).2.2.2
      { mpis := [7] } _ rfl rfl rfl rfl rfl⟩

/-- C9: for a conversation that is not encrypted (message state PLAINTEXT or FINISHED),
every question and every mutual secret, `startAuthenticate` in EXPECT1 returns no TLVs with
`errCantAuthenticateWithoutEncryption` and leaves the conversation unchanged. -/
theorem startAuthenticate_not_encrypted (P : Primitives) (c : Conversation)
    (question : String) (mutualSecret : List Nat)
    (hs : c.smp.state = smpState.smpStateExpect1)
    (hm : c.msgState = msgState.plainText ∨ c.msgState = msgState.finished) :
    c.smp.state.startAuthenticate P c question mutualSecret =
      (c, [], some error.errCantAuthenticateWithoutEncryption) := by
  have henc : c.IsEncrypted = false := by
    rcases hm with h | h <;> simp [Conversation.IsEncrypted, h]
  rw [hs]
  simp [smpState.startAuthenticate, smpStateExpect1.startAuthenticate, henc]

/-- C9, at concrete inputs: a PLAINTEXT and a FINISHED conversation. -/
theorem startAuthenticate_not_encrypted_witness :
    smpState.smpStateExpect1.startAuthenticate (samplePrimitives none true)
        (sampleConversation smpState.smpStateExpect1 msgState.plainText) "who?" [1, 2] =
      (sampleConversation smpState.smpStateExpect1 msgState.plainText, [],
        some error.errCantAuthenticateWithoutEncryption) ∧
    smpState.smpStateExpect1.startAuthenticate (samplePrimitives none true)
        (sampleConversation smpState.smpStateExpect1 msgState.finished) "" [] =
      (sampleConversation smpState.smpStateExpect1 msgState.finished, [],
        some error.errCantAuthenticateWithoutEncryption) :=
  ⟨startAuthenticate_not_encrypted (samplePrimitives none true)
      (sampleConversation smpState.smpStateExpect1 msgState.plainText) "who?" [1, 2] rfl
      (Or.inl rfl),
   startAuthenticate_not_encrypted (samplePrimitives none true)
      (sampleConversation smpState.smpStateExpect1 msgState.finished) "" [] rfl
      (Or.inr rfl)⟩

/-- The TLV type of an SMP-1 message: 7 with a question, 2 without. -/
theorem smp1Message_tlvType (P : Primitives) (m : smp1Message) :
    (m.tlv P).tlvType = if m.hasQuestion then 7 else 2 := by
  unfold smp1Message.tlv
  split_ifs <;> rfl

/-- C10: for an encrypted conversation in EXPECT1 with enough randomness (`generateSMP1`
reports ok, on the conversation that already holds the new secret), `startAuthenticate`
returns exactly one TLV and a nil error; that TLV is the TLV of the SMP-1 message, the same
message is stored in `c.smp.s1`, and it is the generated message, set to carry the question
when the question is non-empty and left as generated otherwise. With a generator whose
message has no question of its own, the message carries the question (`hasQuestion`, the
argument as `question`, TLV type 7 and not 2) if and only if the question is non-empty. -/
theorem startAuthenticate_encrypted (P : Primitives) (c c1 : Conversation)
    (question : String) (mutualSecret : List Nat)
    (hs : c.smp.state = smpState.smpStateExpect1)
    (henc : c.IsEncrypted = true)
    (hc1 : c1 = { c with smp.secret :=
              (P.generateSMPSecret (P.DefaultFingerprint c.OurKey.PublicKey)
                (P.DefaultFingerprint c.TheirKey) c.ssid mutualSecret) })
    (hok : (P.generateSMP1 c1).2 = true) :
    ∃ s1 : smp1State,
      c.smp.state.startAuthenticate P c question mutualSecret =
        ({ c1 with smp.s1 := some s1 }, [s1.msg.tlv P], none) ∧
      s1.params = (P.generateSMP1 c1).1.params ∧
      s1.msg.mpis = (P.generateSMP1 c1).1.msg.mpis ∧
      (question ≠ "" →
        s1.msg.hasQuestion = true ∧ s1.msg.question = question ∧
          (s1.msg.tlv P).tlvType = 7) ∧
      (question = "" → s1 = (P.generateSMP1 c1).1) ∧
      ((P.generateSMP1 c1).1.msg.hasQuestion = false →
        ((s1.msg.hasQuestion = true ∧ s1.msg.question = question ∧
            (s1.msg.tlv P).tlvType = 7) ↔ question ≠ "") ∧
        (question = "" → s1.msg.hasQuestion = false ∧ (s1.msg.tlv P).tlvType = 2)) := by
  subst hc1
  have hd : c.smp.state.startAuthenticate P c question mutualSecret =
      smpStateExpect1.startAuthenticate P c question mutualSecret := by rw [hs]; rfl
  rw [hd]
  by_cases hq : question = ""
  · refine ⟨(P.generateSMP1 _).1, ?_, rfl, rfl, ?_, ?_, ?_⟩
    · simp only [smpStateExpect1.startAuthenticate, henc, hok, hq, Bool.not_true,
        Bool.false_eq_true, if_false, bne_self_eq_false]
    · intro h; exact absurd hq h
    · intro _; rfl
    · intro hg
      refine ⟨?_, ?_⟩
      · constructor
        · rintro ⟨h, _, _⟩
          rw [hg] at h
          exact absurd h (by decide)
        · intro h; exact absurd hq h
      · intro _
        refine ⟨hg, ?_⟩
        rw [smp1Message_tlvType, hg]
        rfl
  · have hb : (question != "") = true := by simpa using hq
    refine ⟨{ (P.generateSMP1 _).1 with msg.hasQuestion := true, msg.question := question },
      ?_, rfl, rfl, ?_, ?_, ?_⟩
    · simp only [smpStateExpect1.startAuthenticate, henc, hok, hb, Bool.not_true,
        Bool.false_eq_true, if_false, if_true]
    · intro _
      exact ⟨rfl, rfl, by rw [smp1Message_tlvType]; rfl⟩
    · intro h; exact absurd h hq
    · intro _
      refine ⟨?_, ?_⟩
      · constructor
        · intro _; exact hq
        · intro _
          exact ⟨rfl, rfl, by rw [smp1Message_tlvType]; rfl⟩
      · intro h; exact absurd h hq

/-- C10, at concrete inputs: with the question "who?" the single TLV has type 7 and the
stored message carries the question; with the empty question the TLV has type 2. -/
theorem startAuthenticate_encrypted_witness :
    (∃ s1 : smp1State,
      smpState.smpStateExpect1.startAuthenticate (samplePrimitives none true)
          (sampleConversation smpState.smpStateExpect1 msgState.encrypted) "who?" [1, 2] =
        ({ sampleConversation smpState.smpStateExpect1 msgState.encrypted with
            smp.secret := some 157, smp.s1 := some s1 },
          [s1.msg.tlv (samplePrimitives none true)], none) ∧
      s1.msg.hasQuestion = true ∧ s1.msg.question = "who?" ∧
      (s1.msg.tlv (samplePrimitives none true)).tlvType = 7) ∧
    (∃ s1 : smp1State,
      smpState.smpStateExpect1.startAuthenticate (samplePrimitives none true)
          (sampleConversation smpState.smpStateExpect1 msgState.encrypted) "" [1, 2] =
        ({ sampleConversation smpState.smpStateExpect1 msgState.encrypted with
            smp.secret := some 157, smp.s1 := some s1 },
          [s1.msg.tlv (samplePrimitives none true)], none) ∧
      s1.msg.hasQuestion = false ∧
      (s1.msg.tlv (samplePrimitives none true)).tlvType = 2) := by
  constructor
  · obtain ⟨s1, h1, _, _, h4, _, _⟩ :=
      startAuthenticate_encrypted (samplePrimitives none true)
        (sampleConversation smpState.smpStateExpect1 msgState.encrypted) _ "who?" [1, 2]
        rfl rfl rfl rfl
    exact ⟨s1, h1, h4 (by decide)⟩
  · obtain ⟨s1, h1, _, _, _, _, h6⟩ :=
      startAuthenticate_encrypted (samplePrimitives none true)
        (sampleConversation smpState.smpStateExpect1 msgState.encrypted) _ "" [1, 2]
        rfl rfl rfl rfl
    exact ⟨s1, h1, (h6 rfl).2 rfl⟩

/-- C11: for every encrypted conversation, `startAuthenticate` in EXPECT1 sets
`c.smp.secret` to `generateSMPSecret` applied, in this order, to the fingerprint of our own
public key, the fingerprint of the peer's key, the session id and the mutual secret (whether
or not the random source is short afterwards). -/
theorem startAuthenticate_sets_secret (P : Primitives) (c : Conversation)
    (question : String) (mutualSecret : List Nat)
    (hs : c.smp.state = smpState.smpStateExpect1)
    (henc : c.IsEncrypted = true) :
    (c.smp.state.startAuthenticate P c question mutualSecret).1.smp.secret =
      P.generateSMPSecret (P.DefaultFingerprint c.OurKey.PublicKey)
        (P.DefaultFingerprint c.TheirKey) c.ssid mutualSecret := by
  have hd : c.smp.state.startAuthenticate P c question mutualSecret =
      smpStateExpect1.startAuthenticate P c question mutualSecret := by rw [hs]; rfl
  rw [hd]
  simp only [smpStateExpect1.startAuthenticate, henc, Bool.not_true, Bool.false_eq_true,
    if_false]
  split_ifs <;> rfl

/-- C11, at a concrete input: our fingerprint `[8]`, the peer's `[13]`, the session id
`1 .. 8` and the secret `[1, 2]` give `8 + 2 * 13 + 3 * 36 + 5 * 3 = 157`; with the two
fingerprints exchanged the sample derivation would give `13 + 2 * 8 + 108 + 15 = 152`. -/
theorem startAuthenticate_sets_secret_witness :
    (smpState.smpStateExpect1.startAuthenticate (samplePrimitives none true)
        (sampleConversation smpState.smpStateExpect1 msgState.encrypted) "who?"
        [1, 2]).1.smp.secret = some 157 ∧
    (samplePrimitives none true).generateSMPSecret [13] [8] [1, 2, 3, 4, 5, 6, 7, 8] [1, 2] =
      some 152 :=
  ⟨startAuthenticate_sets_secret (samplePrimitives none true)
      (sampleConversation smpState.smpStateExpect1 msgState.encrypted) "who?" [1, 2] rfl rfl,
    rfl⟩

/-- The group constants satisfy `2 ^ 1535 ≤ p < 2 ^ 1536` and `p = 2 * q + 1`. -/
theorem p_bounds : (2 : Int) ^ 1535 ≤ p ∧ p < (2 : Int) ^ 1536 ∧ p = 2 * q + 1 := by
  unfold p q
  refine ⟨by norm_num, by norm_num, by norm_num⟩

/-- C16: the group constants of `dh.go`: `p` has exactly 1536 bits, `q` is the subgroup
order with `p = 2 * q + 1`, the generator `g1` is 2 and `pMinusTwo` is `p - 2`. -/
theorem group_constants :
    (2 : Int) ^ 1535 ≤ p ∧ p < (2 : Int) ^ 1536 ∧ p = 2 * q + 1 ∧ g1 = 2 ∧
      pMinusTwo = p - 2 :=
  ⟨p_bounds.1, p_bounds.2.1, p_bounds.2.2, rfl, rfl⟩

/-- C19: in every SMP state other than EXPECT1, `startAuthenticate` returns the SMP-Abort
TLV followed by exactly the TLVs that `startAuthenticate` of EXPECT1 returns for the same
conversation, question and secret, with the same error and the same resulting
conversation; when that call fails (not encrypted, or short random read) the result is the
one-element list holding the SMP-Abort TLV, together with the error. -/
theorem startAuthenticate_other_states (P : Primitives) (c : Conversation)
    (question : String) (mutualSecret : List Nat)
    (hs : c.smp.state ≠ smpState.smpStateExpect1) :
    c.smp.state.startAuthenticate P c question mutualSecret =
        ((smpStateExpect1.startAuthenticate P c question mutualSecret).1,
          smpMessageAbort.tlv P {} ::
            (smpStateExpect1.startAuthenticate P c question mutualSecret).2.1,
          (smpStateExpect1.startAuthenticate P c question mutualSecret).2.2) ∧
    (c.IsEncrypted = false →
      (c.smp.state.startAuthenticate P c question mutualSecret).2 =
        ([smpMessageAbort.tlv P {}], some error.errCantAuthenticateWithoutEncryption)) ∧
    (c.IsEncrypted = true →
      (P.generateSMP1 { c with smp.secret :=
          (P.generateSMPSecret (P.DefaultFingerprint c.OurKey.PublicKey)
            (P.DefaultFingerprint c.TheirKey) c.ssid mutualSecret) }).2 = false →
      (c.smp.state.startAuthenticate P c question mutualSecret).2 =
        ([smpMessageAbort.tlv P {}], some error.errShortRandomRead)) := by
  have hd : c.smp.state.startAuthenticate P c question mutualSecret =
      smpStateBase.startAuthenticate P c question mutualSecret := by
    cases h : c.smp.state
    · exact absurd h hs
    · rfl
    · rfl
    · rfl
  rw [hd]
  refine ⟨rfl, ?_, ?_⟩
  · intro henc
    simp only [smpStateBase.startAuthenticate, smpStateExpect1.startAuthenticate, henc,
      Bool.not_false, if_true, List.append_nil, List.singleton_append]
  · intro henc hok
    simp only [smpStateBase.startAuthenticate, smpStateExpect1.startAuthenticate, henc, hok,
      Bool.not_true, Bool.not_false, Bool.false_eq_true, if_false, if_true, List.append_nil,
      List.singleton_append]

/-- C19, at concrete inputs: in EXPECT3, an encrypted conversation with enough randomness
gets the SMP-Abort TLV followed by the SMP-1 TLV; a PLAINTEXT conversation and a short
random read get the SMP-Abort TLV alone, with the error. -/
theorem startAuthenticate_other_states_witness :
    (smpState.smpStateExpect3.startAuthenticate (samplePrimitives none true)
        (sampleConversation smpState.smpStateExpect3 msgState.encrypted) "" [1, 2]).2 =
      ([{ tlvType := 6, tlvLength := 0, tlvValue := [] },
        { tlvType := 2, tlvLength := 1, tlvValue := [21] }], none) ∧
    (smpState.smpStateExpect3.startAuthenticate (samplePrimitives none true)
        (sampleConversation smpState.smpStateExpect3 msgState.plainText) "" [1, 2]).2 =
      ([{ tlvType := 6, tlvLength := 0, tlvValue := [] }],
        some error.errCantAuthenticateWithoutEncryption) ∧
    (smpState.smpStateExpect3.startAuthenticate (samplePrimitives none false)
        (sampleConversation smpState.smpStateExpect3 msgState.encrypted) "" [1, 2]).2 =
      ([{ tlvType := 6, tlvLength := 0, tlvValue := [] }],
        some error.errShortRandomRead) :=
  ⟨congrArg Prod.snd (startAuthenticate_other_states (samplePrimitives none true)
      (sampleConversation smpState.smpStateExpect3 msgState.encrypted) "" [1, 2]
      (by decide)).1,
   (startAuthenticate_other_states (samplePrimitives none true)
      (sampleConversation smpState.smpStateExpect3 msgState.plainText) "" [1, 2]
      (by decide)).2.1 rfl,
   (startAuthenticate_other_states (samplePrimitives none false)
      (sampleConversation smpState.smpStateExpect3 msgState.encrypted) "" [1, 2]
      (by decide)).2.2 rfl rfl⟩

/-- A slice expression that cuts out the middle part of a three-part backing array. -/
theorem sliceBytes_middle (bytes : ByteSlice) (a b c : List Nat) (lo hi : Nat)
    (hb : bytes.backing = a ++ b ++ c) (hlo : lo = a.length) (hhi : hi = lo + b.length) :
    sliceBytes bytes lo hi = some b := by
  subst hlo hhi
  unfold sliceBytes
  have hcap : bytes.cap = (a ++ b ++ c).length := by
    rw [← hb]
    simp [ByteSlice.cap, ByteSlice.backing]
  have h1 : a.length ≤ a.length + b.length ∧ a.length + b.length ≤ bytes.cap := by
    rw [hcap]
    simp only [List.length_append]
    omega
  rw [if_pos h1, hb]
  simp [List.append_assoc]

/-- Two bytes written big-endian from a `uint16` decode to it. -/
theorem Uint16_bigEndian (n : Nat) (hn : n < 65536) :
    Uint16 [n / 256 % 256, n % 256] = some n := by
  simp only [Uint16, Option.some.injEq]
  omega

/-- The length of the wire form of a record. -/
theorem tlv_serialize_length (t : tlv) : t.serialize.length = 4 + t.tlvValue.length := by
  simp [tlv.serialize]
  omega

/-- The loop body reads back a well-formed record written at `index`, whatever follows it
in the backing array. -/
theorem readTLV_serialize (bytes : ByteSlice) (pre post : List Nat) (t : tlv)
    (ht : t.wellFormed) (hb : bytes.backing = pre ++ t.serialize ++ post) :
    readTLV bytes pre.length = some (t, pre.length + 4 + t.tlvLength) := by
  obtain ⟨hty, hlen, hl⟩ := ht
  have s1 : sliceBytes bytes pre.length (pre.length + 2) =
      some [t.tlvType / 256 % 256, t.tlvType % 256] :=
    sliceBytes_middle _ pre _
      ([t.tlvLength / 256 % 256, t.tlvLength % 256] ++ t.tlvValue ++ post) _ _
      (by rw [hb]; simp [tlv.serialize]) rfl rfl
  have s2 : sliceBytes bytes (pre.length + 2) (pre.length + 4) =
      some [t.tlvLength / 256 % 256, t.tlvLength % 256] :=
    sliceBytes_middle _ (pre ++ [t.tlvType / 256 % 256, t.tlvType % 256]) _
      (t.tlvValue ++ post) _ _ (by rw [hb]; simp [tlv.serialize]) (by simp) (by simp)
  have s3 : sliceBytes bytes (pre.length + 4) (pre.length + 4 + t.tlvLength) =
      some t.tlvValue :=
    sliceBytes_middle _
      (pre ++ [t.tlvType / 256 % 256, t.tlvType % 256, t.tlvLength / 256 % 256,
        t.tlvLength % 256]) _ post _ _
      (by rw [hb]; simp [tlv.serialize]) (by simp) (by rw [hlen])
  simp only [readTLV, s1, s2, s3, Uint16_bigEndian _ hty, Uint16_bigEndian _ hl,
    Option.bind_eq_bind, Option.some_bind, Option.pure_def]

/-- The loop, started at the end of `pre` on `pre` followed by well-formed records, reads
exactly those records when the fuel covers their number, whatever the spare capacity
holds. -/
theorem tlvLoop_serializeTLVs (spare : List Nat) (ts : List tlv)
    (hts : ∀ t ∈ ts, t.wellFormed) :
    ∀ (pre : List Nat) (acc : List tlv) (fuel : Nat), ts.length ≤ fuel →
      tlvLoop { bytes := pre ++ serializeTLVs ts, spare := spare } fuel pre.length acc =
        Outcome.ok (acc ++ ts) := by
  induction ts with
  | nil =>
    intro pre acc fuel _
    cases fuel <;> simp [tlvLoop, serializeTLVs, ByteSlice.len]
  | cons t ts ih =>
    intro pre acc fuel hf
    obtain ⟨f, rfl⟩ : ∃ f, fuel = f + 1 := ⟨fuel - 1, by simp at hf; omega⟩
    have ht : t.wellFormed := hts t (List.mem_cons_self _ _)
    have hrest : ∀ u ∈ ts, u.wellFormed := fun u hu => hts u (List.mem_cons_of_mem _ hu)
    have hlt : pre.length <
        ByteSlice.len { bytes := pre ++ serializeTLVs (t :: ts), spare := spare } := by
      simp only [ByteSlice.len, serializeTLVs, List.length_append, tlv_serialize_length]
      omega
    have hback : ByteSlice.backing
        { bytes := pre ++ serializeTLVs (t :: ts), spare := spare } =
        pre ++ t.serialize ++ (serializeTLVs ts ++ spare) := by
      simp [ByteSlice.backing, serializeTLVs]
    have hbytes : pre ++ serializeTLVs (t :: ts) = (pre ++ t.serialize) ++ serializeTLVs ts := by
      simp [serializeTLVs]
    have hidx : pre.length + 4 + t.tlvLength = (pre ++ t.serialize).length := by
      rw [List.length_append, tlv_serialize_length, ht.2.1]
      omega
    rw [tlvLoop, if_pos hlt, readTLV_serialize _ pre _ t ht hback]
    simp only
    rw [hidx, hbytes, ih hrest (pre ++ t.serialize) (acc ++ [t]) f (by simp at hf; omega)]
    simp

/-- The wire form of a list of records has at least four bytes per record. -/
theorem serializeTLVs_length (ts : List tlv) : ts.length ≤ (serializeTLVs ts).length := by
  induction ts with
  | nil => simp [serializeTLVs]
  | cons t ts ih =>
    simp only [serializeTLVs, List.length_append, tlv_serialize_length, List.length_cons]
    omega

/-- The loop of `genDataMsg` reads back any list of well-formed records, whatever the spare
capacity of the slice holds. -/
theorem parseTLVs_serializeTLVs (spare : List Nat) (ts : List tlv)
    (hts : ∀ t ∈ ts, t.wellFormed) :
    parseTLVs { bytes := serializeTLVs ts, spare := spare } = Outcome.ok ts := by
  have h := tlvLoop_serializeTLVs spare ts hts [] [] (serializeTLVs ts).length
    (serializeTLVs_length ts)
  simpa [parseTLVs, ByteSlice.len] using h

/-- C18: on a concatenation of well-formed TLV records (with any spare capacity behind it)
the parsing loop of `genDataMsg` performs no out-of-range slice access and builds exactly
that list of records, in order (type and length decoded big-endian, the value being the
`tlvLength` bytes that follow); on the empty byte string it builds the empty list. -/
theorem parseTLVs_wellFormed :
    (∀ (ts : List tlv) (spare : List Nat), (∀ t ∈ ts, t.wellFormed) →
      parseTLVs { bytes := serializeTLVs ts, spare := spare } = Outcome.ok ts) ∧
    (∀ (t : tlv) (pre post spare : List Nat), t.wellFormed →
      readTLV
          { bytes := pre ++ [t.tlvType / 256 % 256, t.tlvType % 256,
              t.tlvLength / 256 % 256, t.tlvLength % 256] ++ t.tlvValue ++ post,
            spare := spare } pre.length =
        some (t, pre.length + 4 + t.tlvLength)) ∧
    (∀ spare : List Nat, parseTLVs { bytes := [], spare := spare } = Outcome.ok []) := by
  refine ⟨fun ts spare hts => parseTLVs_serializeTLVs spare ts hts, ?_, fun _ => rfl⟩
  intro t pre post spare ht
  apply readTLV_serialize _ pre (post ++ spare) t ht
  simp [ByteSlice.backing, tlv.serialize, List.append_assoc]

/-- C18, at the concrete input of the tests: the two records `00 01 00 02 01 01` and
`00 02 00 05 01 01 01 01 01`. -/
theorem parseTLVs_wellFormed_witness :
    parseTLVs { bytes := [0, 1, 0, 2, 1, 1, 0, 2, 0, 5, 1, 1, 1, 1, 1], spare := [] } =
      Outcome.ok [{ tlvType := 1, tlvLength := 2, tlvValue := [1, 1] },
        { tlvType := 2, tlvLength := 5, tlvValue := [1, 1, 1, 1, 1] }] :=
  parseTLVs_wellFormed.1
    [{ tlvType := 1, tlvLength := 2, tlvValue := [1, 1] },
      { tlvType := 2, tlvLength := 5, tlvValue := [1, 1, 1, 1, 1] }] []
    (by decide)

/-- On a well-formed TLV byte string `genDataMsg` returns the wire form of `dataMessage`. -/
theorem genDataMsg_of_wellFormed (serialize : dataMsg → List Nat) (c : akeContext)
    (a : ByteSlice) (ha : wellFormedTLVBytes a.bytes) :
    c.genDataMsg serialize a = Outcome.ok (serialize c.dataMessage) := by
  obtain ⟨bytes, spare⟩ := a
  obtain ⟨ts, hts, rfl⟩ := ha
  simp only [akeContext.genDataMsg, parseTLVs_serializeTLVs spare ts hts]

/-- C13, as stated, fails: two data messages generated one after the other by the same
context (the method does not change it) carry the same all-zero top-half counter, so the
second counter is not greater than the first. -/
theorem topHalfCtr_counterexample :
    (sampleContext 2).genDataMsg sampleSerialize
        { bytes := [0, 1, 0, 2, 1, 1], spare := [] } =
      Outcome.ok [0, 1, 3, 0, 0, 0, 0, 0, 0, 0, 0] ∧
    (sampleContext 2).genDataMsg sampleSerialize { bytes := [0, 2, 0, 0], spare := [] } =
      Outcome.ok [0, 1, 3, 0, 0, 0, 0, 0, 0, 0, 0] ∧
    (sampleContext 2).dataMessage.topHalfCtr = [0, 0, 0, 0, 0, 0, 0, 0] ∧
    ctrValue (sampleContext 2).dataMessage.topHalfCtr = 0 ∧
    ¬ ctrValue (sampleContext 2).dataMessage.topHalfCtr <
      ctrValue (sampleContext 2).dataMessage.topHalfCtr := by
  refine ⟨rfl, rfl, rfl, rfl, ?_⟩
  exact Nat.lt_irrefl _

/-- C13, amended: every data message built by `genDataMsg` carries the all-zero 8-byte
top-half counter (the counter is not wired to any key management), so the counters of any
two messages, whatever the contexts and key ids, are equal, with value 0. -/
theorem topHalfCtr_always_zero (c1 c2 : akeContext) :
    c1.dataMessage.topHalfCtr = [0, 0, 0, 0, 0, 0, 0, 0] ∧
    c2.dataMessage.topHalfCtr = c1.dataMessage.topHalfCtr ∧
    ctrValue c1.dataMessage.topHalfCtr = 0 ∧ ctrValue c2.dataMessage.topHalfCtr = 0 :=
  ⟨rfl, rfl, rfl, rfl⟩

/-- C14, as stated, fails: with our key id 2 the message advertises sender key id 1, and
its DH value is our current public key itself. -/
theorem dataMessage_keys_counterexample :
    (sampleContext 2).dataMessage.senderKeyID = 1 ∧
    (sampleContext 2).dataMessage.senderKeyID ≠ (sampleContext 2).ourKeyID ∧
    (sampleContext 2).dataMessage.y = (sampleContext 2).ourCurrentDHKeys.pub := by
  refine ⟨rfl, by decide, rfl⟩

/-- C14, amended: the data message built by `genDataMsg` advertises as `senderKeyID` our
key id minus one (in `uint32` arithmetic), as `recipientKeyID` the peer's current key id,
and as its DH value `c.ourCurrentDHKeys.pub` itself. -/
theorem dataMessage_keys (c : akeContext) :
    c.dataMessage.senderKeyID = (c.ourKeyID + 4294967295) % 4294967296 ∧
    (1 ≤ c.ourKeyID → c.ourKeyID < 4294967296 →
      c.dataMessage.senderKeyID = c.ourKeyID - 1) ∧
    c.dataMessage.recipientKeyID = c.theirKeyID ∧
    c.dataMessage.y = c.ourCurrentDHKeys.pub := by
  refine ⟨rfl, ?_, rfl, rfl⟩
  intro h1 h2
  show (c.ourKeyID + 4294967295) % 4294967296 = c.ourKeyID - 1
  omega

/-- C14 amended, at a concrete input: our key id 2, the peer's key id 3, DH public key 5. -/
theorem dataMessage_keys_witness :
    (sampleContext 2).dataMessage.senderKeyID = 2 - 1 ∧
    (sampleContext 2).dataMessage.recipientKeyID = 3 ∧
    (sampleContext 2).dataMessage.y = some 5 :=
  ⟨(dataMessage_keys (sampleContext 2)).2.1 (by decide) (by decide),
    (dataMessage_keys (sampleContext 2)).2.2.1, (dataMessage_keys (sampleContext 2)).2.2.2⟩

/-- C20: the output of `genDataMsg` does not depend on the TLVs it is given: for every
context and any two well-formed TLV byte strings the outputs are equal, namely the wire
form of a message with flag `0x00`, an empty encrypted payload, an all-zero 8-byte top-half
counter, an all-zero 20-byte authenticator, no revealed MAC keys and both instance tags 0. -/
theorem genDataMsg_ignores_tlvs (serialize : dataMsg → List Nat) (c : akeContext)
    (a b : ByteSlice) (ha : wellFormedTLVBytes a.bytes) (hb : wellFormedTLVBytes b.bytes) :
    c.genDataMsg serialize a = c.genDataMsg serialize b ∧
    c.genDataMsg serialize a = Outcome.ok (serialize c.dataMessage) ∧
    c.dataMessage.flag = 0 ∧ c.dataMessage.dataMsgEncrypted = [] ∧
    c.dataMessage.topHalfCtr = [0, 0, 0, 0, 0, 0, 0, 0] ∧
    c.dataMessage.authenticator =
      [0, 0, 0, 0, 0, 0, 0, 0, 0, 0, 0, 0, 0, 0, 0, 0, 0, 0, 0, 0] ∧
    c.dataMessage.oldRevealKeyMAC = [] ∧
    c.dataMessage.dhMessage.senderInstanceTag = 0 ∧
    c.dataMessage.dhMessage.receiverInstanceTag = 0 := by
  rw [genDataMsg_of_wellFormed serialize c a ha, genDataMsg_of_wellFormed serialize c b hb]
  exact ⟨rfl, rfl, rfl, rfl, rfl, rfl, rfl, rfl, rfl⟩

/-- C20, at concrete inputs: one record with a value and one empty record of another type
give the same output. -/
theorem genDataMsg_ignores_tlvs_witness :
    (sampleContext 2).genDataMsg sampleSerialize
        { bytes := [0, 1, 0, 2, 1, 1], spare := [] } =
      (sampleContext 2).genDataMsg sampleSerialize
        { bytes := [0, 2, 0, 0], spare := [9, 9] } ∧
    (sampleContext 2).genDataMsg sampleSerialize
        { bytes := [0, 1, 0, 2, 1, 1], spare := [] } =
      Outcome.ok [0, 1, 3, 0, 0, 0, 0, 0, 0, 0, 0] :=
  have h := genDataMsg_ignores_tlvs sampleSerialize (sampleContext 2)
    { bytes := [0, 1, 0, 2, 1, 1], spare := [] } { bytes := [0, 2, 0, 0], spare := [9, 9] }
    ⟨[{ tlvType := 1, tlvLength := 2, tlvValue := [1, 1] }], by decide, rfl⟩
    ⟨[{ tlvType := 2, tlvLength := 0, tlvValue := [] }], by decide, rfl⟩
  ⟨h.1, h.2.1⟩

/-- The wire form of a list of records, record by record. -/
theorem serializeTLVs_eq_flatMap (ts : List tlv) :
    serializeTLVs ts = ts.flatMap tlv.serialize := by
  induction ts with
  | nil => rfl
  | cons t ts ih => simp [serializeTLVs, ih]

/-- C15: for every list of well-formed TLVs, `serialize` of a `dataMsgPlainText` with
`nul = 0x00` and those TLVs is the byte `0x00` followed by, for each TLV in order, the type
and the length as big-endian `uint16` and the value bytes; `deserialize` of those bytes
returns no error and yields `nul = 0x00` and the same TLVs in the same order. -/
theorem plaintext_roundtrip (ts : List tlv) (hts : ∀ t ∈ ts, t.wellFormed)
    (d0 : dataMsgPlainText) :
    dataMsgPlainText.serialize { nul := 0, tlvs := ts } =
      0 :: ts.flatMap (fun t =>
        [t.tlvType / 256 % 256, t.tlvType % 256, t.tlvLength / 256 % 256,
          t.tlvLength % 256] ++ t.tlvValue) ∧
    d0.deserialize (dataMsgPlainText.serialize { nul := 0, tlvs := ts }) =
      ({ nul := 0, tlvs := ts }, none) := by
  constructor
  · rw [dataMsgPlainText.serialize, serializeTLVs_eq_flatMap]
    rfl
  · simp only [dataMsgPlainText.serialize, dataMsgPlainText.deserialize,
      parseTLVs_serializeTLVs [] ts hts]

/-- C15, at the concrete input of the tests: the records `(1, 2, 01 01)` and
`(2, 5, 01 01 01 01 01)`. -/
theorem plaintext_roundtrip_witness :
    dataMsgPlainText.serialize
        { nul := 0, tlvs := [{ tlvType := 1, tlvLength := 2, tlvValue := [1, 1] },
            { tlvType := 2, tlvLength := 5, tlvValue := [1, 1, 1, 1, 1] }] } =
      [0, 0, 1, 0, 2, 1, 1, 0, 2, 0, 5, 1, 1, 1, 1, 1] ∧
    dataMsgPlainText.deserialize { nul := 0, tlvs := [] }
        [0, 0, 1, 0, 2, 1, 1, 0, 2, 0, 5, 1, 1, 1, 1, 1] =
      ({ nul := 0, tlvs := [{ tlvType := 1, tlvLength := 2, tlvValue := [1, 1] },
          { tlvType := 2, tlvLength := 5, tlvValue := [1, 1, 1, 1, 1] }] }, none) :=
  plaintext_roundtrip
    [{ tlvType := 1, tlvLength := 2, tlvValue := [1, 1] },
      { tlvType := 2, tlvLength := 5, tlvValue := [1, 1, 1, 1, 1] }]
    (by decide) { nul := 0, tlvs := [] }

/-- C17: for a conversation with a fixed version `v`, `receiveDecoded` fails with
`errInvalidOTRMessage` on the empty message; with `errWrongProtocolVersion` on a message
whose 2-byte version field is not the wire number of `v` (so on a v3 message for a v2
conversation, on a v2 message for a v3 conversation, and on the 2-byte message `00 00`);
and, on a message of the right version with a complete header and an unrecognised type
byte `t`, with the error "unknown message type 0x" followed by `t` in hexadecimal. -/
theorem receiveDecoded_bad_envelope (allows : Nat → otrVersion → Bool) (c : Conversation)
    (v : otrVersion) (hv : c.version = some v) :
    (c.receiveDecoded allows []).2 = Decoded.failed errInvalidOTRMessage ∧
    (∀ (b0 b1 : Nat) (rest : List Nat), v.protocolVersion ≠ b0 % 256 * 256 + b1 % 256 →
      (c.receiveDecoded allows (b0 :: b1 :: rest)).2 =
        Decoded.failed errWrongProtocolVersion) ∧
    (c.receiveDecoded allows [0, 0]).2 = Decoded.failed errWrongProtocolVersion ∧
    (∀ (b0 b1 t : Nat) (rest : List Nat), v.protocolVersion = b0 % 256 * 256 + b1 % 256 →
      (if v = otrVersion.otrV3 then 8 else 0) ≤ rest.length → t ∉ knownMessageTypes →
      (c.receiveDecoded allows (b0 :: b1 :: t :: rest)).2 =
        Decoded.failed (newOtrError ("unknown message type 0x" ++ hexDigits t))) := by
  have hwrong : ∀ (b0 b1 : Nat) (rest : List Nat),
      v.protocolVersion ≠ b0 % 256 * 256 + b1 % 256 →
      (c.receiveDecoded allows (b0 :: b1 :: rest)).2 =
        Decoded.failed errWrongProtocolVersion := by
    intro b0 b1 rest hne
    simp only [Conversation.receiveDecoded, hv, ne_eq, hne, not_false_eq_true, if_true]
  refine ⟨rfl, hwrong, ?_, ?_⟩
  · apply hwrong
    cases v <;> simp [otrVersion.protocolVersion]
  · intro b0 b1 t rest hver hlen hun
    have hlen2 : ¬ rest.length < (if v = otrVersion.otrV3 then 8 else 0) := by omega
    simp only [Conversation.receiveDecoded, hv, ne_eq, hver, not_true_eq_false, if_false,
      hlen2, hun]

/-- C17, at the concrete inputs of the tests: a v2 header for a v3 conversation, the
message `00 00`, and the v3 message with type byte `0x56`. -/
theorem receiveDecoded_bad_envelope_witness :
    ((sampleConversation smpState.smpStateExpect1 msgState.plainText).receiveDecoded
        (fun _ _ => true) [0x00, 0x02, 0x02]).2 = Decoded.failed errWrongProtocolVersion ∧
    ((sampleConversation smpState.smpStateExpect1 msgState.plainText).receiveDecoded
        (fun _ _ => true) [0x00, 0x00]).2 = Decoded.failed errWrongProtocolVersion ∧
    ((sampleConversation smpState.smpStateExpect1 msgState.plainText).receiveDecoded
        (fun _ _ => true)
        [0x00, 0x03, 0x56, 0x00, 0x00, 0x01, 0x02, 0x00, 0x00, 0x01, 0x01]).2 =
      Decoded.failed (newOtrError "unknown message type 0x56") :=
  have h := receiveDecoded_bad_envelope (fun _ _ => true)
    (sampleConversation smpState.smpStateExpect1 msgState.plainText) otrVersion.otrV3 rfl
  ⟨h.2.1 0x00 0x02 [0x02] (by decide), h.2.2.1,
    h.2.2.2 0x00 0x03 0x56 [0x00, 0x00, 0x01, 0x02, 0x00, 0x00, 0x01, 0x01]
      (by decide) (by decide) (by decide)⟩

/-- C12: evaluation of the run of the claim. The initiator is in EXPECT2, the responder in
EXPECT1, and the SMP-1 TLV is in flight. With every check passing both peers end in
EXPECT1. With the protocol-success check of SMP-3 failing at the responder, the responder
ends in EXPECT1 and returns no TLV, so nothing reaches the initiator, which stays in
EXPECT4. -/
theorem smp_run_final_states :
    relayRun (samplePrimitives none true) sampleParse 8 true
        (sampleConversation smpState.smpStateExpect2 msgState.encrypted)
        (sampleConversation smpState.smpStateExpect1 msgState.encrypted)
        { tlvType := 2, tlvLength := 1, tlvValue := [21] } =
      Outcome.ok (sampleConversation smpState.smpStateExpect1 msgState.encrypted,
        sampleConversation smpState.smpStateExpect1 msgState.encrypted) ∧
    relayRun mismatchPrimitives sampleParse 8 true
        (sampleConversation smpState.smpStateExpect2 msgState.encrypted)
        (sampleConversation smpState.smpStateExpect1 msgState.encrypted)
        { tlvType := 2, tlvLength := 1, tlvValue := [21] } =
      Outcome.ok (sampleConversation smpState.smpStateExpect4 msgState.encrypted,
        sampleConversation smpState.smpStateExpect1 msgState.encrypted) ∧
    (sampleConversation smpState.smpStateExpect3 msgState.encrypted).receiveSMP
        mismatchPrimitives (smpMessage.smp3 { mpis := [23] }) =
      some (sampleConversation smpState.smpStateExpect1 msgState.encrypted, none,
        some (error.other "protocol failed")) := by
  refine ⟨by decide, by decide, rfl⟩

/-- C21: the `senderKeyID` written by `genDataMsg` is `c.ourKeyID - 1` in unsigned 32-bit
arithmetic: for a `uint32` key id it is `(ourKeyID - 1) mod 2 ^ 32`, which is
`ourKeyID - 1` when `ourKeyID ≥ 1` and wraps to `0xFFFFFFFF` when `ourKeyID` is 0. -/
theorem senderKeyID_wraps (c : akeContext) (h32 : c.ourKeyID < 2 ^ 32) :
    (c.dataMessage.senderKeyID : Int) = ((c.ourKeyID : Int) - 1) % 2 ^ 32 ∧
    c.dataMessage.senderKeyID < 2 ^ 32 ∧
    (1 ≤ c.ourKeyID → c.dataMessage.senderKeyID + 1 = c.ourKeyID) ∧
    (c.ourKeyID = 0 → c.dataMessage.senderKeyID = 0xFFFFFFFF) := by
  have hdef : c.dataMessage.senderKeyID = (c.ourKeyID + 4294967295) % 4294967296 := rfl
  norm_num at h32
  refine ⟨?_, ?_, ?_, ?_⟩
  · rw [hdef]
    norm_num
    omega
  · rw [hdef]
    norm_num
    omega
  · intro h1
    rw [hdef]
    omega
  · intro h0
    rw [hdef, h0]

/-- C21, at concrete inputs: key id 2 gives sender key id 1 (so `1 + 1 = 2`), key id 0
gives `0xFFFFFFFF`. -/
theorem senderKeyID_wraps_witness :
    (sampleContext 2).dataMessage.senderKeyID + 1 = 2 ∧
    (sampleContext 0).dataMessage.senderKeyID = 0xFFFFFFFF :=
  ⟨(senderKeyID_wraps (sampleContext 2) (by decide)).2.2.1 (by decide),
    (senderKeyID_wraps (sampleContext 0) (by decide)).2.2.2 rfl⟩

/-- A slice expression that succeeds has its bounds within the capacity. -/
theorem sliceBytes_bounds (b : ByteSlice) (v : List Nat) (lo hi : Nat)
    (h : sliceBytes b lo hi = some v) : lo ≤ hi ∧ hi ≤ b.cap := by
  unfold sliceBytes at h
  split_ifs at h with hc
  exact hc

/-- One iteration of the loop that does not fault ends at `index + 4 + tlvLength`, within
the capacity of the input. -/
theorem readTLV_end (bytes : ByteSlice) (index e : Nat) (t : tlv)
    (h : readTLV bytes index = some (t, e)) :
    e = index + 4 + t.tlvLength ∧ e ≤ bytes.cap := by
  simp only [readTLV, Option.bind_eq_bind, Option.bind_eq_some, Option.pure_def,
    Option.some.injEq, Prod.mk.injEq] at h
  obtain ⟨tb, _, ty, _, lb, _, len, _, v, hv, ht, he⟩ := h
  have hb := sliceBytes_bounds _ _ _ _ hv
  subst ht
  exact ⟨he.symm, by omega⟩

/-- With one unit of fuel for every four bytes between `index` and the length (rounded up)
the loop does not run out of fuel. -/
theorem tlvLoop_fuel_suffices (bytes : ByteSlice) :
    ∀ (fuel index : Nat) (acc : List tlv), (bytes.len - index + 3) / 4 ≤ fuel →
      tlvLoop bytes fuel index acc ≠ Outcome.outOfFuel := by
  intro fuel
  induction fuel with
  | zero =>
    intro index acc hf
    have hlt : ¬ index < bytes.len := by omega
    simp [tlvLoop, hlt]
  | succ f ih =>
    intro index acc hf
    rw [tlvLoop]
    split_ifs with hlt
    · cases hr : readTLV bytes index with
      | none => simp
      | some r =>
        obtain ⟨t, e⟩ := r
        obtain ⟨he, _⟩ := readTLV_end bytes index e t hr
        simp only
        apply ih
        omega
    · simp

/-- Fuel beyond what a run needs does not change its result. -/
theorem tlvLoop_fuel_mono (bytes : ByteSlice) :
    ∀ (fuel extra index : Nat) (acc : List tlv),
      tlvLoop bytes fuel index acc ≠ Outcome.outOfFuel →
      tlvLoop bytes (fuel + extra) index acc = tlvLoop bytes fuel index acc := by
  intro fuel
  induction fuel with
  | zero =>
    intro extra index acc h
    have hlt : ¬ index < bytes.len := by
      intro hlt
      simp [tlvLoop, hlt] at h
    cases extra <;> simp [tlvLoop, hlt]
  | succ f ih =>
    intro extra index acc h
    rw [show f + 1 + extra = (f + extra) + 1 by omega, tlvLoop, tlvLoop]
    rw [tlvLoop] at h
    split_ifs with hlt
    · rw [if_pos hlt] at h
      cases hr : readTLV bytes index with
      | none => rfl
      | some r =>
        obtain ⟨t, e⟩ := r
        rw [hr] at h
        exact ih extra e (acc ++ [t]) h
    · rfl

/-- C22: the parsing loop of `genDataMsg` terminates on every input, whatever the capacity
of the slice. An iteration that does not fault moves `index` to `index + 4 + tlvLength`, at
least 4 further (within the capacity, possibly beyond the length); an iteration starts only
while `index < len(tlvsBytes)`, hence `ceil(len(tlvsBytes) / 4)` iterations always suffice:
with that much fuel the loop ends (with its records or with a fault), more fuel gives the
same result, and the loop of `genDataMsg` never runs out of fuel. -/
theorem tlvLoop_terminates (tlvsBytes : ByteSlice) :
    (∀ (index e : Nat) (t : tlv), readTLV tlvsBytes index = some (t, e) →
      e = index + 4 + t.tlvLength ∧ index + 4 ≤ e ∧ index < e ∧ e ≤ tlvsBytes.cap) ∧
    tlvLoop tlvsBytes ((tlvsBytes.len + 3) / 4) 0 [] ≠ Outcome.outOfFuel ∧
    (∀ fuel : Nat, (tlvsBytes.len + 3) / 4 ≤ fuel →
      tlvLoop tlvsBytes fuel 0 [] = tlvLoop tlvsBytes ((tlvsBytes.len + 3) / 4) 0 []) ∧
    parseTLVs tlvsBytes ≠ Outcome.outOfFuel := by
  have hmin : tlvLoop tlvsBytes ((tlvsBytes.len + 3) / 4) 0 [] ≠ Outcome.outOfFuel :=
    tlvLoop_fuel_suffices tlvsBytes _ 0 [] (by simp)
  refine ⟨?_, hmin, ?_, ?_⟩
  · intro index e t h
    obtain ⟨he, hle⟩ := readTLV_end tlvsBytes index e t h
    exact ⟨he, by omega, by omega, hle⟩
  · intro fuel hf
    obtain ⟨extra, rfl⟩ : ∃ extra, fuel = (tlvsBytes.len + 3) / 4 + extra :=
      ⟨fuel - (tlvsBytes.len + 3) / 4, by omega⟩
    exact tlvLoop_fuel_mono tlvsBytes _ extra 0 [] hmin
  · exact tlvLoop_fuel_suffices tlvsBytes _ 0 [] (by simp; omega)

/-- C22, at concrete inputs. On the 15-byte test input without spare capacity the first
record ends at index 6, and four iterations (`ceil(15 / 4)`) give the result of fifteen. On
the 3-byte slice `00 01 00` of a 16-byte array that goes on with `02 01 01`, the only
iteration reads the length `00 02` and the value `01 01` from beyond the length, ends at
index 6 and the loop returns its one record: one iteration (`ceil(3 / 4)`) is enough. -/
theorem tlvLoop_terminates_witness :
    (6 = 0 + 4 + 2 ∧ 0 + 4 ≤ 6 ∧ 0 < 6 ∧
      6 ≤ ByteSlice.cap
        { bytes := [0, 1, 0, 2, 1, 1, 0, 2, 0, 5, 1, 1, 1, 1, 1], spare := [] }) ∧
    tlvLoop { bytes := [0, 1, 0, 2, 1, 1, 0, 2, 0, 5, 1, 1, 1, 1, 1], spare := [] } 15 0 [] =
      tlvLoop { bytes := [0, 1, 0, 2, 1, 1, 0, 2, 0, 5, 1, 1, 1, 1, 1], spare := [] }
        4 0 [] ∧
    (6 = 0 + 4 + 2 ∧ 0 + 4 ≤ 6 ∧ 0 < 6 ∧
      6 ≤ ByteSlice.cap
        { bytes := [0, 1, 0], spare := [2, 1, 1, 0, 0, 0, 0, 0, 0, 0, 0, 0, 0] }) ∧
    tlvLoop { bytes := [0, 1, 0], spare := [2, 1, 1, 0, 0, 0, 0, 0, 0, 0, 0, 0, 0] } 3 0 [] =
      tlvLoop { bytes := [0, 1, 0], spare := [2, 1, 1, 0, 0, 0, 0, 0, 0, 0, 0, 0, 0] }
        1 0 [] ∧
    tlvLoop { bytes := [0, 1, 0], spare := [2, 1, 1, 0, 0, 0, 0, 0, 0, 0, 0, 0, 0] } 1 0 [] =
      Outcome.ok [{ tlvType := 1, tlvLength := 2, tlvValue := [1, 1] }] :=
  ⟨(tlvLoop_terminates
      { bytes := [0, 1, 0, 2, 1, 1, 0, 2, 0, 5, 1, 1, 1, 1, 1], spare := [] }).1 0 6
      { tlvType := 1, tlvLength := 2, tlvValue := [1, 1] } rfl,
    (tlvLoop_terminates
      { bytes := [0, 1, 0, 2, 1, 1, 0, 2, 0, 5, 1, 1, 1, 1, 1], spare := [] }).2.2.1 15
      (by decide),
    (tlvLoop_terminates
      { bytes := [0, 1, 0], spare := [2, 1, 1, 0, 0, 0, 0, 0, 0, 0, 0, 0, 0] }).1 0 6
      { tlvType := 1, tlvLength := 2, tlvValue := [1, 1] } rfl,
    (tlvLoop_terminates
      { bytes := [0, 1, 0], spare := [2, 1, 1, 0, 0, 0, 0, 0, 0, 0, 0, 0, 0] }).2.2.1 3
      (by decide),
    rfl⟩

/-- C23: in any SMP state, `restart` sets the SMP state to EXPECT1, changes no other field
and returns the serialization of the SMP-Abort TLV; it is idempotent: a second call leaves
the same conversation and returns the same bytes. -/
theorem restart_spec (P : Primitives) (c : Conversation) :
    c.restart P =
      some ({ c with smp.state := smpState.smpStateExpect1 },
        (smpMessageAbort.tlv P {}).serialize) ∧
    Conversation.restart P { c with smp.state := smpState.smpStateExpect1 } =
      some ({ c with smp.state := smpState.smpStateExpect1 },
        (smpMessageAbort.tlv P {}).serialize) ∧
    (c.restart P).bind (fun r => r.1.restart P) = c.restart P :=
  ⟨rfl, rfl, rfl⟩

end otr3
